import Mathlib

/-! Video ingestion handler (`handler_upload_video.go`).

A shallow embedding of `handlerUploadVideo`, `getVideoAspectRatio` and
`processVideoForFastStart`.  Every call that leaves the handler (token
validation, metadata store, multipart parsing, the file system, the two
external tools, the object store) is resolved by a field of `Outcomes`;
the handler itself is a pure function from the outcomes and the initial
`World` to the final `World` together with the way the handler was left.
The `World` carries the ordered trace of the calls made, the set of paths
present on the local file system and the metadata store.
-/

namespace Tubely

/-! ## Data model -/

def StatusOK : Nat := 200
def StatusBadRequest : Nat := 400
def StatusUnauthorized : Nat := 401
def StatusNotFound : Nat := 404
def StatusRequestEntityTooLarge : Nat := 413
def StatusUnsupportedMediaType : Nat := 415
def StatusExpectationFailed : Nat := 417
def StatusTeapot : Nat := 418
def StatusInternalServerError : Nat := 500

/-- Modelled from the spec: the record type `database.Video` is declared outside
the two handler files; the spec gives it an identity, an owning user, an optional
thumbnail URL and an optional video URL. -/
structure Video where
  ID : Nat
  UserID : Nat
  ThumbnailURL : Option String
  VideoURL : Option String
deriving DecidableEq, Repr

/-- One entry per call the handler makes to a collaborator, in program order. -/
inductive Event where
  | respondWithError (code : Nat) (msg : String)
  | writeHeader (code : Nat)
  | respondWithJSON (code : Nat) (payload : Video)
  | getVideo (id : Nat)
  | bodyRead (limit : Option Nat) (bufLen : Nat)
  | formFile (field : String) (limit : Option Nat)
  | createTemp (dir pattern : String)
  | readAll
  | tempWrite (path : String)
  | seek (path : String)
  | ffprobe (path : String)
  | ffmpeg (input output : String)
  | openFile (path : String)
  | closeFile (path : String)
  | remove (path : String)
  | randRead (n : Nat)
  | putObject (bucket key contentType : String)
  | updateVideo (v : Video)
deriving DecidableEq, Repr

/-- One element of `jsonOut.Streams`. -/
structure Stream where
  Width : Int
  Height : Int
deriving DecidableEq, Repr

/-- What the external inspection tool and the JSON decoder produced. -/
inductive ProbeRun where
  /-- The call `exec.Command("ffprobe", ...).Output()` returned an error. -/
  | execError
  /-- The call `json.Unmarshal(output, &out)` returned an error. -/
  | badJSON
  /-- The output decoded into `out`; the argument is `out.Streams`. -/
  | parsed (streams : List Stream)
deriving DecidableEq, Repr

/-- A request body reader: `limit` is the byte limit in force on it, if any. -/
structure BodyReader where
  limit : Option Nat
deriving DecidableEq, Repr

/-- What the external remux tool did. -/
inductive RemuxRun where
  /-- Exit status zero: the output file has been written. -/
  | done
  /-- The call `CombinedOutput()` returned an error; `leftOutput` tells whether
  the tool had already created its output file. -/
  | failed (leftOutput : Bool)
deriving DecidableEq, Repr

/-- A Go call result: a value, an `error`, or a run-time panic. -/
inductive Result (α : Type) where
  | ok (a : α)
  | error (msg : String)
  | panic (msg : String)
deriving DecidableEq, Repr

/-- How the handler was left. -/
inductive Exit where
  | returned
  | panicked (msg : String)
deriving DecidableEq, Repr

/-- Mutable surroundings of one request. -/
structure World where
  trace : List Event
  files : List String
  db : List Video
deriving DecidableEq, Repr

/-- The part of `apiConfig` the handler reads directly. -/
structure apiConfig where
  jwtSecret : String

/-- Results of every call whose code lives outside the handler file. -/
structure Outcomes where
  /-- Result of `uuid.Parse(r.PathValue("videoID"))`. -/
  videoID : Option Nat
  /-- Result of `auth.GetBearerToken(r.Header)`. -/
  bearerToken : Option String
  /-- Result of `auth.ValidateJWT(token, secret)`. -/
  validateJWT : String → String → Option Nat
  /-- Number of bytes in the request body. -/
  bodyLen : Nat
  /-- Whether `Read` on the given reader, with a buffer of the given length,
  returned an error (the library returns none for a buffer of length zero). -/
  bodyRead : BodyReader → Nat → Bool
  /-- Whether `r.FormFile("video")`, reading the given `r.Body`, returned an error. -/
  formFile : BodyReader → Bool
  /-- Media type returned by `mime.ParseMediaType` on the part's Content-Type. -/
  mediaType : String
  /-- Whether `mime.ParseMediaType` returned an error. -/
  mediaTypeErr : Bool
  /-- Value of `os.TempDir()`. -/
  tempDir : String
  /-- Process working directory, against which relative paths resolve. -/
  cwd : String
  /-- Random suffix chosen by `os.CreateTemp`, or `none` when it fails. -/
  createTemp : Option String
  /-- Whether `io.ReadAll(file)` returned an error. -/
  readAllErr : Bool
  /-- Whether `tempFile.Write(data)` returned an error. -/
  tempWriteErr : Bool
  /-- Behaviour of ffprobe followed by JSON decoding, per input path. -/
  ffprobe : String → ProbeRun
  /-- Behaviour of ffmpeg, per input and output path. -/
  ffmpeg : String → String → RemuxRun
  /-- Whether `os.Open(fastVideoPath)` returned an error. -/
  openErr : Bool
  /-- Process environment, read with `os.Getenv`. -/
  getenv : String → String
  /-- Bytes that `rand.Read` stored into the buffer. -/
  randBytes : List Nat
  /-- Whether `PutObject` returned an error. -/
  putObjectErr : Bool
  /-- Whether `UpdateVideo` returned an error. -/
  updateVideoErr : Bool

/-! ## Collaborators -/

def World.log (w : World) (e : Event) : World :=
  { w with trace := w.trace ++ [e] }

/-- Helper `respondWithError(w, code, msg, err)`: one error response. -/
def respondWithError (code : Nat) (msg : String) (w : World) : World :=
  w.log (.respondWithError code msg)

/-- Helper `respondWithJSON(w, code, payload)`. -/
def respondWithJSON (code : Nat) (payload : Video) (w : World) : World :=
  w.log (.respondWithJSON code payload)

/-- Modelled from the spec: the metadata store is declared outside the handler
files; `getRecord(id)` looks a record up by identity and fails when absent. -/
def GetVideo (db : List Video) (id : Nat) : Option Video :=
  db.find? (fun v => v.ID == id)

/-- Modelled from the spec: `updateRecord(VideoRecord)` replaces the stored
record that has the same identity. -/
def UpdateVideo (db : List Video) (v : Video) : List Video :=
  db.map (fun x => if x.ID == v.ID then v else x)

/-! ## String helpers (`strings.HasPrefix`, `strings.TrimPrefix`) -/

def HasPrefix (s pre : String) : Bool := pre.toList.isPrefixOf s.toList

def TrimPrefix (s pre : String) : String :=
  if HasPrefix s pre then String.mk (s.toList.drop pre.length) else s

/-- An absolute path is kept, a relative one is taken from the working directory. -/
def resolve (cwd p : String) : String :=
  if HasPrefix p "/" then p else cwd ++ "/" ++ p

/-- Effect of `os.Remove(path)` on the set of existing paths. -/
def osRemove (cwd path : String) (w : World) : World :=
  { (w.log (.remove path)) with files := w.files.filter (fun f => f != resolve cwd path) }

def closeFile (path : String) (w : World) : World :=
  w.log (.closeFile path)

/-- A deferred call runs when the function is left, by return or by panic. -/
def deferred (d : World → World) (r : World × Exit) : World × Exit :=
  (d r.1, r.2)

/-! ## Base64 token (`base64.RawURLEncoding`) -/

def encodeURL : List Char :=
  "ABCDEFGHIJKLMNOPQRSTUVWXYZabcdefghijklmnopqrstuvwxyz0123456789-_".toList

def b64 (n : Nat) : Char := encodeURL.getD (n % 64) 'A'

/-- The stdlib encoder `base64.RawURLEncoding.EncodeToString`: URL-safe alphabet, no padding. -/
def rawURLEncode : List Nat → List Char
  | a :: b :: c :: rest =>
      let v := (a % 256) * 65536 + (b % 256) * 256 + (c % 256)
      b64 (v / 262144) :: b64 (v / 4096) :: b64 (v / 64) :: b64 v :: rawURLEncode rest
  | [a, b] =>
      let v := (a % 256) * 65536 + (b % 256) * 256
      [b64 (v / 262144), b64 (v / 4096), b64 (v / 64)]
  | [a] =>
      let v := (a % 256) * 65536
      [b64 (v / 262144), b64 (v / 4096)]
  | [] => []

def EncodeToString (src : List Nat) : String := String.mk (rawURLEncode src)

/-- Position of a character in the URL-safe alphabet. -/
def b64Index (c : Char) : Nat := encodeURL.indexOf c

/-- Inverse of `rawURLEncode` on its own output: four characters give back three
bytes, a final group of three or two characters gives back two bytes or one. -/
def rawURLDecode : List Char → List Nat
  | c0 :: c1 :: c2 :: c3 :: rest =>
      let v := b64Index c0 * 262144 + b64Index c1 * 4096 + b64Index c2 * 64 + b64Index c3
      v / 65536 :: v / 256 % 256 :: v % 256 :: rawURLDecode rest
  | [c0, c1, c2] =>
      let v := b64Index c0 * 262144 + b64Index c1 * 4096 + b64Index c2 * 64
      [v / 65536, v / 256 % 256]
  | [c0, c1] =>
      let v := b64Index c0 * 262144 + b64Index c1 * 4096
      [v / 65536]
  | _ => []

/-! ## binary64 arithmetic

A finite binary64 value is represented by the rational it denotes.  `fl` is
rounding to nearest, ties to even, with 53 significant bits.  The exponent is
not bounded: the operands of the classification are quotients and differences
of converted 64-bit integers, which lie far inside the normal range. -/

/-- Nearest integer, ties to even. -/
def roundHalfEven (y : ℚ) : ℤ :=
  if y - ⌊y⌋ < 1 / 2 then ⌊y⌋
  else if 1 / 2 < y - ⌊y⌋ then ⌊y⌋ + 1
  else if ⌊y⌋ % 2 = 0 then ⌊y⌋ else ⌊y⌋ + 1

/-- Spacing of binary64 values around a positive `x`. -/
def ulp (x : ℚ) : ℚ := 2 ^ (Int.log 2 x - 52)

/-- Nearest binary64 value of a positive rational. -/
def roundPos (x : ℚ) : ℚ := roundHalfEven (x / ulp x) * ulp x

/-- Nearest binary64 value of a rational. -/
def fl (x : ℚ) : ℚ :=
  if x = 0 then 0 else if x < 0 then - roundPos (-x) else roundPos x

/-- Conversion `float64(n)` of an `int`. -/
def float64 (n : ℤ) : ℚ := fl n

/-- Lines 175-182 of `getVideoAspectRatio`, for a width and a height that are Go
`int` values.  A zero height makes the quotient an infinity or a NaN, for which
both comparisons are false. -/
def classify (width height : ℤ) : String :=
  if height = 0 then "other"
  else
    let ratio := fl (float64 width / float64 height)
    if |fl (ratio - fl (16 / 9))| < fl (1 / 100) then "16:9"
    else if |fl (ratio - fl (9 / 16))| < fl (1 / 100) then "9:16"
    else "other"

/-! ## The three functions of `handler_upload_video.go` -/

def maxMemory : Nat := 10 <<< 30

/-- Wrapper `http.MaxBytesReader(w, body, n)`: a new reader limited to `n` bytes. -/
def MaxBytesReader (_body : BodyReader) (n : Nat) : BodyReader := ⟨some n⟩

/-- Function `getVideoAspectRatio(filePath)`. -/
def getVideoAspectRatio (o : Outcomes) (filePath : String) (w : World) :
    World × Result String :=
  let w := w.log (.ffprobe filePath)
  match o.ffprobe filePath with
  | .execError => (w, .error "ffprobe failed")
  | .badJSON => (w, .error "no video streams found")
  | .parsed streams =>
    match streams with
    | [] => (w, .panic "index out of range [0] with length 0")
    | s0 :: _ =>
      let height := s0.Height
      let width := s0.Width
      (w, .ok (classify width height))

/-- Function `processVideoForFastStart(filePath)`. -/
def processVideoForFastStart (o : Outcomes) (filePath : String) (w : World) :
    World × Result String :=
  let outputPath := filePath ++ ".processing"
  let w := w.log (.ffmpeg filePath outputPath)
  match o.ffmpeg filePath outputPath with
  | .done =>
    ({ w with files := resolve o.cwd outputPath :: w.files }, .ok outputPath)
  | .failed leftOutput =>
    (if leftOutput then { w with files := resolve o.cwd outputPath :: w.files } else w,
      .error "error running ffmpeg")

/-- Lines 134-154 of `handlerUploadVideo`: object store and metadata store. -/
def storeAndRecord (o : Outcomes) (video : Video) (ratio media mediaType : String)
    (w : World) : World × Exit :=
  let bucketName := o.getenv "S3_BUCKET"
  let nameStr := (o.randBytes ++ List.replicate 32 0).take 32
  let w := w.log (.randRead 32)
  let name := EncodeToString nameStr
  let name := ratio ++ "/" ++ name ++ "." ++ media
  let w := w.log (.putObject bucketName name mediaType)
  if o.putObjectErr then
    (respondWithError StatusExpectationFailed "Failed to create object in remote bucket" w,
      .returned)
  else
    let distro := o.getenv "S3_CF_DISTRO"
    let distroUrl := distro ++ "/" ++ name
    let video := { video with VideoURL := some distroUrl }
    let w := w.log (.updateVideo video)
    if o.updateVideoErr then
      (respondWithError StatusInternalServerError "Failed to update video url in database" w,
        .returned)
    else
      let w := { w with db := UpdateVideo w.db video }
      (respondWithJSON StatusOK video w, .returned)

/-- Lines 113-118 of `handlerUploadVideo`: the two renamings of `ratio`. -/
def orientation (ratio : String) : String :=
  let ratio := if ratio = "16:9" then "landscape" else ratio
  let ratio := if ratio = "9:16" then "portrait" else ratio
  ratio

/-- Lines 93-132 of `handlerUploadVideo`: fill the temp file, probe, rewrite. -/
def processStaged (o : Outcomes) (video : Video) (media mediaType tempName : String)
    (w : World) : World × Exit :=
  let w := w.log .readAll
  if o.readAllErr then
    (respondWithError StatusInternalServerError "Failed to read data from video file" w,
      .returned)
  else
    let w := w.log (.tempWrite tempName)
    if o.tempWriteErr then
      (respondWithError StatusInternalServerError "Failed to write to temp file" w, .returned)
    else
      let w := w.log (.seek tempName)
      match getVideoAspectRatio o tempName w with
      | (w, .panic msg) => (w, .panicked msg)
      | (w, .error _) =>
        (respondWithError StatusInternalServerError "getVideoAspectRatio failed" w, .returned)
      | (w, .ok ratio) =>
        let ratio := orientation ratio
        match processVideoForFastStart o tempName w with
        | (w, .panic msg) => (w, .panicked msg)
        | (w, .error _) =>
          (respondWithError StatusTeapot "processVideoForFastStart failed" w, .returned)
        | (w, .ok fastVideoPath) =>
          let w := w.log (.openFile fastVideoPath)
          if o.openErr then
            (respondWithError StatusTeapot "Failed to process video to new file" w, .returned)
          else
            deferred (closeFile fastVideoPath)
              (deferred (osRemove o.cwd fastVideoPath)
                (storeAndRecord o video ratio media mediaType w))

/-- Lines 71-74 of `handlerUploadVideo`: a parse error is answered and control
falls through to the next statement. -/
def afterParse (o : Outcomes) (w : World) : World :=
  if o.mediaTypeErr then
    respondWithError StatusBadRequest "Header must include Content-Type" w
  else w

/-- Lines 71-91 of `handlerUploadVideo`: media type gate and temp file creation. -/
def gateAndStage (o : Outcomes) (video : Video) (w : World) : World × Exit :=
  let mediaType := o.mediaType
  let w := afterParse o w
  let media := if HasPrefix mediaType "video/" then TrimPrefix mediaType "video/" else ""
  if media ≠ "mp4" then
    (respondWithError StatusUnsupportedMediaType "Video upload must be .mp4" w, .returned)
  else
    let pattern := "tubely-upload." ++ media
    let w := w.log (.createTemp "" pattern)
    match o.createTemp with
    | none =>
      (respondWithError StatusInternalServerError
        "Failed to create temp file in local storage" w, .returned)
    | some rnd =>
      let tempName := o.tempDir ++ "/" ++ pattern ++ rnd
      let w := { w with files := tempName :: w.files }
      deferred (osRemove o.cwd ("tubely-upload." ++ media))
        (deferred (closeFile tempName)
          (processStaged o video media mediaType tempName w))

/-- Method `(cfg *apiConfig) handlerUploadVideo(w, r)`. -/
def handlerUploadVideo (cfg : apiConfig) (o : Outcomes) (w : World) : World × Exit :=
  match o.videoID with
  | none => (respondWithError StatusBadRequest "Invalid ID" w, .returned)
  | some videoID =>
    match o.bearerToken with
    | none => (respondWithError StatusUnauthorized "Couldn't find JWT" w, .returned)
    | some token =>
      match o.validateJWT token cfg.jwtSecret with
      | none => (respondWithError StatusUnauthorized "Couldn't validate JWT" w, .returned)
      | some userID =>
        let w := w.log (.getVideo videoID)
        match GetVideo w.db videoID with
        | none => (respondWithError StatusNotFound "Couldn't find video" w, .returned)
        | some video =>
          if video.UserID ≠ userID then
            (respondWithError StatusUnauthorized "Video does not belong to user" w, .returned)
          else
            -- `r.Body` is not reassigned: the limited reader is a separate value
            let rBody : BodyReader := ⟨none⟩
            let bodyReader := MaxBytesReader rBody maxMemory
            let reqBodyLen := 0
            let w := w.log (.bodyRead bodyReader.limit reqBodyLen)
            if o.bodyRead bodyReader reqBodyLen then
              (w.log (.writeHeader 400), .returned)
            else
              let w := w.log (.formFile "video" rBody.limit)
              if o.formFile rBody then
                (respondWithError StatusInternalServerError "Cannot read file contents" w,
                  .returned)
              else
                deferred (closeFile "video") (gateAndStage o video w)

/-! ## Observations on a trace -/

/-- Status codes of the responses written, in order. -/
@[simp]
def statuses : List Event → List Nat
  | [] => []
  | .respondWithError c _ :: es => c :: statuses es
  | .writeHeader c :: es => c :: statuses es
  | .respondWithJSON c _ :: es => c :: statuses es
  | _ :: es => statuses es

/-- Status codes passed to `respondWithError`, in order. -/
@[simp]
def errorResponses : List Event → List Nat
  | [] => []
  | .respondWithError c _ :: es => c :: errorResponses es
  | _ :: es => errorResponses es

@[simp]
def isResponse : Event → Bool
  | .respondWithError _ _ => true
  | .writeHeader _ => true
  | .respondWithJSON _ _ => true
  | _ => false

@[simp]
def isCreateTemp : Event → Bool
  | .createTemp _ _ => true
  | _ => false

@[simp]
def isProcessCall : Event → Bool
  | .ffprobe _ => true
  | .ffmpeg _ _ => true
  | _ => false

@[simp]
def isPutObject : Event → Bool
  | .putObject _ _ _ => true
  | _ => false

@[simp]
def isUpdateVideo : Event → Bool
  | .updateVideo _ => true
  | _ => false

/-- An owner's upload of `bodyLen` bytes whose first stream is `width` by `height`:
user 1 is authenticated, every collaborator succeeds, and a multipart extraction
fails exactly when it reads through a reader whose limit is below `bodyLen`. -/
def uploadOutcomes (bodyLen : Nat) (width height : Int) : Outcomes where
  videoID := some 7
  bearerToken := some "token"
  validateJWT := fun _ _ => some 1
  bodyLen := bodyLen
  bodyRead := fun _ _ => false
  formFile := fun rd => match rd.limit with
    | some n => decide (n < bodyLen)
    | none => false
  mediaType := "video/mp4"
  mediaTypeErr := false
  tempDir := "/tmp"
  cwd := "/srv/tubely"
  createTemp := some "123456789"
  readAllErr := false
  tempWriteErr := false
  ffprobe := fun _ => .parsed [⟨width, height⟩]
  ffmpeg := fun _ _ => .done
  openErr := false
  getenv := fun k => if k = "S3_BUCKET" then "bucket" else "https://cdn.example"
  randBytes := List.range 32
  putObjectErr := false
  updateVideoErr := false

/-- A 1280x720 upload of 4096 bytes in which every collaborator succeeds. -/
def sampleOutcomes : Outcomes := uploadOutcomes 4096 1280 720

/-- A 720x1280 upload of 4096 bytes in which every collaborator succeeds, with the
random bytes 255, 248, 241, ..., 38. -/
def portraitOutcomes : Outcomes :=
  { uploadOutcomes 4096 720 1280 with randBytes := (List.range 32).map (fun i => 255 - 7 * i) }

/-- A body one byte larger than `maxMemory`. -/
def oversizeOutcomes : Outcomes := uploadOutcomes (maxMemory + 1) 1280 720

/-- The inspection tool exits with an error. -/
def probeFailOutcomes : Outcomes := { sampleOutcomes with ffprobe := fun _ => .execError }

/-- The inspection tool prints an object whose stream list is empty, which decodes
without error. -/
def noStreamOutcomes : Outcomes := { sampleOutcomes with ffprobe := fun _ => .parsed [] }

/-- The remux tool fails after it created its output file. -/
def rewriteFailOutcomes : Outcomes := { sampleOutcomes with ffmpeg := fun _ _ => .failed true }

/-- The object store rejects the upload. -/
def putFailOutcomes : Outcomes := { sampleOutcomes with putObjectErr := true }

/-- The metadata store rejects the update. -/
def updateFailOutcomes : Outcomes := { sampleOutcomes with updateVideoErr := true }

/-- The caller is authenticated as user 2; record 7 belongs to user 1. -/
def intruderOutcomes : Outcomes := { sampleOutcomes with validateJWT := fun _ _ => some 2 }

/-- The uploaded part declares `image/png`. -/
def pngOutcomes : Outcomes := { sampleOutcomes with mediaType := "image/png" }

/-- The uploaded part has no Content-Type header: `mime.ParseMediaType("")` returns
the empty media type and the error "mime: no media type". -/
def absentTypeOutcomes : Outcomes :=
  { sampleOutcomes with mediaType := "", mediaTypeErr := true }

/-- The part declares `video/mp4` with a malformed parameter: the parser returns
the media type together with `ErrInvalidMediaParameter`. -/
def paramErrorOutcomes : Outcomes := { sampleOutcomes with mediaTypeErr := true }

def sampleWorld : World where
  trace := []
  files := []
  db := [⟨7, 1, none, none⟩]

/-- The request is authenticated as the owner of the fetched record and both
body reads succeed: control reaches line 71. -/
structure ReachesGate (cfg : apiConfig) (o : Outcomes) (db : List Video) (videoID : Nat)
    (token : String) (video : Video) : Prop where
  hid : o.videoID = some videoID
  htok : o.bearerToken = some token
  hjwt : o.validateJWT token cfg.jwtSecret = some video.UserID
  hget : GetVideo db videoID = some video
  hrd : o.bodyRead ⟨some maxMemory⟩ 0 = false
  hff : o.formFile ⟨none⟩ = false

/-- The gate is passed with a parsed `video/mp4` type and the upload is written
to the temp file whose random suffix is `rnd`: control reaches line 107. -/
structure ReachesProbe (cfg : apiConfig) (o : Outcomes) (db : List Video) (videoID : Nat)
    (token : String) (video : Video) (rnd : String) : Prop where
  gate : ReachesGate cfg o db videoID token video
  hmt : o.mediaType = "video/mp4"
  hparse : o.mediaTypeErr = false
  hct : o.createTemp = some rnd
  hra : o.readAllErr = false
  hwr : o.tempWriteErr = false

/-- Object key built at lines 135-138 of `handlerUploadVideo`. -/
def objectKey (o : Outcomes) (ratio media : String) : String :=
  ratio ++ "/" ++ EncodeToString ((o.randBytes ++ List.replicate 32 0).take 32) ++ "." ++ media

/-- Name of the temp file made by `os.CreateTemp("", "tubely-upload.mp4")`. -/
def tempName (o : Outcomes) (rnd : String) : String :=
  o.tempDir ++ "/" ++ "tubely-upload.mp4" ++ rnd

/-- Scan of a trace: every UpdateVideo call comes after a PutObject call
(`seen` tells whether one was already made). -/
@[simp]
def updateGuarded : Bool → List Event → Bool
  | _, [] => true
  | _, .putObject _ _ _ :: es => updateGuarded true es
  | seen, .updateVideo _ :: es => seen && updateGuarded seen es
  | seen, _ :: es => updateGuarded seen es

/-- What every phase of the handler guarantees about the events `l` it adds and
about the store it leaves; `allowed` lists the status codes it may answer with. -/
structure Summary (o : Outcomes) (allowed : List Nat) (l : List Event)
    (db db2 : List Video) : Prop where
  codes : ∀ c ∈ statuses l, c ∈ allowed
  guarded : updateGuarded false l = true
  updOk : l.any isUpdateVideo = true → o.putObjectErr = false
  dbUpd : db2 ≠ db → l.any isUpdateVideo = true
  putErr : l.any isPutObject = true → o.putObjectErr = true →
    StatusInternalServerError ∉ statuses l ∧ StatusExpectationFailed ∈ statuses l

/-- Events that carry no store call and no 500 response, with codes among `allowed`. -/
def Quiet (allowed : List Nat) (l : List Event) : Prop :=
  l.any isPutObject = false ∧ l.any isUpdateVideo = false ∧
    (∀ c ∈ statuses l, c ∈ allowed) ∧ StatusInternalServerError ∉ statuses l

/-! ## Lemmas on traces and on the phases of the handler -/

theorem statuses_append (a b : List Event) : statuses (a ++ b) = statuses a ++ statuses b := by
  induction a with
  | nil => rfl
  | cons e es ih => cases e <;> simp [ih]

theorem updateGuarded_append (s : Bool) (a b : List Event) :
    updateGuarded s (a ++ b) = (updateGuarded s a && updateGuarded (s || a.any isPutObject) b) := by
  induction a generalizing s with
  | nil => simp
  | cons e es ih => cases e <;> cases s <;> simp [ih]

theorem updateGuarded_of_noUpdate (l : List Event) (h : l.any isUpdateVideo = false)
    (s : Bool) : updateGuarded s l = true := by
  induction l generalizing s with
  | nil => rfl
  | cons e es ih =>
    rw [List.any_cons, Bool.or_eq_false_iff] at h
    obtain ⟨h1, h2⟩ := h
    have ih2 := ih h2
    cases e <;> first | (simp [ih2]; done) | (simp at h1)

/-- Quiet events around a phase keep its summary. -/
theorem Summary.wrap {o : Outcomes} {a b : List Nat} {l : List Event} {db db2 : List Video}
    (h : Summary o a l db db2) (hab : ∀ c ∈ a, c ∈ b) (p q : List Event)
    (hp : Quiet b p) (hq : Quiet b q) :
    Summary o b (p ++ l ++ q) db db2 := by
  obtain ⟨hp1, hp2, hp3, hp4⟩ := hp
  obtain ⟨hq1, hq2, hq3, hq4⟩ := hq
  have hqg := updateGuarded_of_noUpdate q hq2
  have hpg := updateGuarded_of_noUpdate p hp2
  constructor
  · intro c hc
    simp only [statuses_append, List.mem_append] at hc
    rcases hc with (hc | hc) | hc
    · exact hp3 c hc
    · exact hab c (h.codes c hc)
    · exact hq3 c hc
  · rw [updateGuarded_append, updateGuarded_append, hpg, hqg, hp1]
    simpa using h.guarded
  · intro hu
    apply h.updOk
    rw [List.any_append, List.any_append, hp2, hq2] at hu
    simpa using hu
  · intro hd
    have := h.dbUpd hd
    rw [List.any_append, List.any_append, this]
    simp
  · intro hput herr
    have hput2 : l.any isPutObject = true := by
      rw [List.any_append, List.any_append, hp1, hq1] at hput
      simpa using hput
    obtain ⟨h1, h2⟩ := h.putErr hput2 herr
    simp only [statuses_append, List.mem_append, not_or]
    exact ⟨⟨⟨hp4, h1⟩, hq4⟩, Or.inl (Or.inr h2)⟩

theorem storeAndRecord_summary (o : Outcomes) (video : Video) (ratio media mediaType : String)
    (w : World) :
    ∃ l, (storeAndRecord o video ratio media mediaType w).1.trace = w.trace ++ l ∧
      (storeAndRecord o video ratio media mediaType w).1.files = w.files ∧
      Summary o [200, 417, 500] l w.db (storeAndRecord o video ratio media mediaType w).1.db := by
  unfold storeAndRecord
  simp only [respondWithError, respondWithJSON, World.log]
  split
  · refine ⟨_, by simp; rfl, rfl, ?_⟩
    constructor <;> simp_all [StatusExpectationFailed, StatusInternalServerError]
  · split
    · refine ⟨_, by simp; rfl, rfl, ?_⟩
      constructor <;> simp_all [StatusExpectationFailed, StatusInternalServerError]
    · refine ⟨_, by simp; rfl, rfl, ?_⟩
      constructor <;> simp_all [StatusExpectationFailed, StatusInternalServerError, StatusOK]

theorem getVideoAspectRatio_world (o : Outcomes) (p : String) (w : World) :
    (getVideoAspectRatio o p w).1 = w.log (.ffprobe p) := by
  unfold getVideoAspectRatio
  simp only
  split
  · rfl
  · rfl
  · split <;> rfl

theorem processVideoForFastStart_world (o : Outcomes) (p : String) (w : World) :
    (processVideoForFastStart o p w).1.trace = w.trace ++ [.ffmpeg p (p ++ ".processing")] ∧
    (processVideoForFastStart o p w).1.db = w.db := by
  unfold processVideoForFastStart
  simp only [World.log]
  split
  · exact ⟨rfl, rfl⟩
  · split <;> exact ⟨rfl, rfl⟩

theorem processStaged_summary (o : Outcomes) (video : Video) (media mediaType tempName : String)
    (w : World) :
    ∃ l, (processStaged o video media mediaType tempName w).1.trace = w.trace ++ l ∧
      Summary o [200, 417, 418, 500] l w.db (processStaged o video media mediaType tempName w).1.db := by
  unfold processStaged
  simp only [respondWithError]
  split
  · refine ⟨_, by simp [World.log]; rfl, ?_⟩
    constructor <;> simp_all [World.log, StatusInternalServerError]
  · split
    · refine ⟨_, by simp [World.log]; rfl, ?_⟩
      constructor <;> simp_all [World.log, StatusInternalServerError]
    · have h1 := getVideoAspectRatio_world o tempName
        (((w.log .readAll).log (.tempWrite tempName)).log (.seek tempName))
      split
      · rename_i w1 msg heq
        rw [heq] at h1
        simp only at h1
        subst h1
        refine ⟨_, by simp [World.log]; rfl, ?_⟩
        constructor <;> simp_all [World.log, StatusInternalServerError]
      · rename_i w1 msg heq
        rw [heq] at h1
        simp only at h1
        subst h1
        refine ⟨_, by simp [World.log]; rfl, ?_⟩
        constructor <;> simp_all [World.log, StatusInternalServerError]
      · rename_i w1 ratio heq
        rw [heq] at h1
        simp only at h1
        subst h1
        have h2 := processVideoForFastStart_world o tempName
          ((((w.log .readAll).log (.tempWrite tempName)).log (.seek tempName)).log
            (.ffprobe tempName))
        split
        · rename_i w2 msg heq2
          rw [heq2] at h2
          simp only [World.log] at h2
          obtain ⟨h2t, h2d⟩ := h2
          refine ⟨[.readAll, .tempWrite tempName, .seek tempName, .ffprobe tempName,
              .ffmpeg tempName (tempName ++ ".processing")], by simp [h2t], ?_⟩
          constructor <;> simp [h2d, StatusInternalServerError]
        · rename_i w2 msg heq2
          rw [heq2] at h2
          simp only [World.log] at h2
          obtain ⟨h2t, h2d⟩ := h2
          refine ⟨[.readAll, .tempWrite tempName, .seek tempName, .ffprobe tempName,
              .ffmpeg tempName (tempName ++ ".processing"),
              .respondWithError StatusTeapot "processVideoForFastStart failed"],
            by simp [World.log, h2t], ?_⟩
          constructor <;>
            simp [World.log, h2d, StatusInternalServerError,
              StatusTeapot]
        · rename_i w2 fastVideoPath heq2
          rw [heq2] at h2
          simp only [World.log] at h2
          obtain ⟨h2t, h2d⟩ := h2
          split
          · refine ⟨[.readAll, .tempWrite tempName, .seek tempName, .ffprobe tempName,
              .ffmpeg tempName (tempName ++ ".processing"), .openFile fastVideoPath,
              .respondWithError StatusTeapot "Failed to process video to new file"],
              by simp [World.log, h2t], ?_⟩
            constructor <;>
              simp [World.log, h2d, StatusInternalServerError,
                StatusTeapot]
          · obtain ⟨l, hl, _, hs⟩ := storeAndRecord_summary o video
              (orientation ratio)
              media mediaType (w2.log (.openFile fastVideoPath))
            refine ⟨[.readAll, .tempWrite tempName, .seek tempName, .ffprobe tempName,
              .ffmpeg tempName (tempName ++ ".processing"), .openFile fastVideoPath] ++ l ++
              [.remove fastVideoPath, .closeFile fastVideoPath], ?_, ?_⟩
            · simp only [deferred, closeFile, osRemove, World.log]
              simp only [World.log] at hl
              rw [hl, h2t]
              simp
            · have hs2 : Summary o [200, 417, 500] l w.db (storeAndRecord o video
                  (orientation ratio)
                  media mediaType (w2.log (.openFile fastVideoPath))).1.db := by
                rw [← h2d]
                exact hs
              exact hs2.wrap (by decide) [.readAll, .tempWrite tempName, .seek tempName, .ffprobe tempName,
                  .ffmpeg tempName (tempName ++ ".processing"), .openFile fastVideoPath]
                [.remove fastVideoPath, .closeFile fastVideoPath]
                (by simp [Quiet, StatusInternalServerError])
                (by simp [Quiet, StatusInternalServerError])

theorem media_eq_mp4_iff (mt : String) :
    (if HasPrefix mt "video/" then TrimPrefix mt "video/" else "") = "mp4" ↔
      mt = "video/mp4" := by
  constructor
  · intro h
    by_cases hp : HasPrefix mt "video/" = true
    · simp only [hp, if_true, TrimPrefix] at h
      unfold HasPrefix at hp
      rw [List.isPrefixOf_iff_prefix] at hp
      obtain ⟨t, ht⟩ := hp
      have h3 : mt.toList.drop 6 = "mp4".toList := by
        have := congrArg String.toList h
        simpa using this
      rw [← ht] at h3
      have h4 : t = "mp4".toList := by simpa using h3
      have h5 : mt = String.mk mt.toList := rfl
      rw [h5, ← ht, h4]
      rfl
    · rw [if_neg hp] at h
      exact absurd h (by decide)
  · rintro rfl
    decide

theorem pattern_mp4 : "tubely-upload." ++ "mp4" = "tubely-upload.mp4" := by decide

theorem gateAndStage_reject (o : Outcomes) (video : Video) (w : World)
    (h : o.mediaType ≠ "video/mp4") :
    gateAndStage o video w =
      (respondWithError StatusUnsupportedMediaType "Video upload must be .mp4" (afterParse o w),
        Exit.returned) := by
  have hm := (media_eq_mp4_iff o.mediaType).not.mpr h
  unfold gateAndStage
  simp only [hm, ne_eq, not_false_eq_true, if_true]

theorem gateAndStage_noTemp (o : Outcomes) (video : Video) (w : World)
    (h : o.mediaType = "video/mp4") (hc : o.createTemp = none) :
    gateAndStage o video w =
      (respondWithError StatusInternalServerError "Failed to create temp file in local storage"
        ((afterParse o w).log (.createTemp "" "tubely-upload.mp4")), Exit.returned) := by
  have hm := (media_eq_mp4_iff o.mediaType).mpr h
  unfold gateAndStage
  simp only [hm, ne_eq, not_true_eq_false, if_false, hc, pattern_mp4]

theorem gateAndStage_staged (o : Outcomes) (video : Video) (w : World) (rnd : String)
    (h : o.mediaType = "video/mp4") (hc : o.createTemp = some rnd) :
    gateAndStage o video w =
      deferred (osRemove o.cwd "tubely-upload.mp4")
        (deferred (closeFile (o.tempDir ++ "/" ++ "tubely-upload.mp4" ++ rnd))
          (processStaged o video "mp4" "video/mp4" (o.tempDir ++ "/" ++ "tubely-upload.mp4" ++ rnd)
            { (afterParse o w).log (.createTemp "" "tubely-upload.mp4") with
              files := (o.tempDir ++ "/" ++ "tubely-upload.mp4" ++ rnd) :: (afterParse o w).files })) := by
  have hm := (media_eq_mp4_iff o.mediaType).mpr h
  unfold gateAndStage
  simp only [hm, ne_eq, not_true_eq_false, if_false, hc, pattern_mp4, h]
  rfl

theorem afterParse_world (o : Outcomes) (w : World) :
    (afterParse o w).trace = w.trace ++
      (if o.mediaTypeErr then
        [Event.respondWithError StatusBadRequest "Header must include Content-Type"] else []) ∧
    (afterParse o w).files = w.files ∧ (afterParse o w).db = w.db := by
  unfold afterParse
  cases o.mediaTypeErr <;> simp [respondWithError, World.log]

theorem quiet_afterParse (o : Outcomes) (a : List Nat) (es : List Event) (h : Quiet a es)
    (ha : 400 ∈ a) :
    Quiet a ((if o.mediaTypeErr then
        [Event.respondWithError StatusBadRequest "Header must include Content-Type"] else []) ++ es) := by
  obtain ⟨h1, h2, h3, h4⟩ := h
  cases o.mediaTypeErr
  · exact ⟨by simpa using h1, by simpa using h2, by simpa using h3, by simpa using h4⟩
  · refine ⟨by simpa using h1, by simpa using h2, ?_, ?_⟩
    · intro c hc
      simp only [if_true, List.singleton_append, statuses, List.mem_cons] at hc
      rcases hc with hc | hc
      · rw [hc]; exact ha
      · exact h3 c hc
    · simpa [StatusBadRequest, StatusInternalServerError] using h4

theorem gateAndStage_summary (o : Outcomes) (video : Video) (w : World) :
    ∃ l, (gateAndStage o video w).1.trace = w.trace ++ l ∧
      Summary o [200, 400, 415, 417, 418, 500] l w.db (gateAndStage o video w).1.db := by
  obtain ⟨hat, haf, hadb⟩ := afterParse_world o w
  by_cases h : o.mediaType = "video/mp4"
  · cases hc : o.createTemp with
    | none =>
      rw [gateAndStage_noTemp o video w h hc]
      refine ⟨(if o.mediaTypeErr then
        [Event.respondWithError StatusBadRequest "Header must include Content-Type"] else []) ++
        [.createTemp "" "tubely-upload.mp4",
         .respondWithError StatusInternalServerError "Failed to create temp file in local storage"],
        by simp [respondWithError, World.log, hat], ?_⟩
      simp only [respondWithError, World.log, hadb]
      cases o.mediaTypeErr <;> constructor <;>
        simp [StatusInternalServerError, StatusBadRequest]
    | some rnd =>
      rw [gateAndStage_staged o video w rnd h hc]
      obtain ⟨l, hl, hs⟩ := processStaged_summary o video "mp4" "video/mp4"
        (o.tempDir ++ "/" ++ "tubely-upload.mp4" ++ rnd)
        { (afterParse o w).log (.createTemp "" "tubely-upload.mp4") with
          files := (o.tempDir ++ "/" ++ "tubely-upload.mp4" ++ rnd) :: (afterParse o w).files }
      refine ⟨((if o.mediaTypeErr then
        [Event.respondWithError StatusBadRequest "Header must include Content-Type"] else []) ++
        [.createTemp "" "tubely-upload.mp4"]) ++ l ++
        [.closeFile (o.tempDir ++ "/" ++ "tubely-upload.mp4" ++ rnd),
         .remove "tubely-upload.mp4"], ?_, ?_⟩
      · simp only [deferred, closeFile, osRemove, World.log]
        simp only [World.log] at hl
        rw [hl, hat]
        simp
      · have hs2 : Summary o [200, 417, 418, 500] l w.db (processStaged o video "mp4" "video/mp4"
            (o.tempDir ++ "/" ++ "tubely-upload.mp4" ++ rnd)
            { (afterParse o w).log (.createTemp "" "tubely-upload.mp4") with
              files := (o.tempDir ++ "/" ++ "tubely-upload.mp4" ++ rnd) ::
                (afterParse o w).files }).1.db := by
          rw [← hadb]
          exact hs
        exact hs2.wrap (by decide) _ _
          (quiet_afterParse o _ _ (by simp [Quiet, StatusInternalServerError]) (by decide))
          (by simp [Quiet, StatusInternalServerError])
  · rw [gateAndStage_reject o video w h]
    refine ⟨(if o.mediaTypeErr then
        [Event.respondWithError StatusBadRequest "Header must include Content-Type"] else []) ++
        [.respondWithError StatusUnsupportedMediaType "Video upload must be .mp4"],
        by simp [respondWithError, World.log, hat], ?_⟩
    simp only [respondWithError, World.log, hadb]
    cases o.mediaTypeErr <;> constructor <;>
      simp [StatusInternalServerError, StatusBadRequest,
        StatusUnsupportedMediaType]

theorem handler_mismatch (cfg : apiConfig) (o : Outcomes) (w : World) (videoID userID : Nat)
    (token : String) (video : Video)
    (hid : o.videoID = some videoID) (htok : o.bearerToken = some token)
    (hjwt : o.validateJWT token cfg.jwtSecret = some userID)
    (hget : GetVideo w.db videoID = some video) (hne : video.UserID ≠ userID) :
    handlerUploadVideo cfg o w =
      (⟨w.trace ++ [Event.getVideo videoID,
          Event.respondWithError StatusUnauthorized "Video does not belong to user"],
        w.files, w.db⟩, Exit.returned) := by
  simp [handlerUploadVideo, hid, htok, hjwt, World.log, hget, hne, respondWithError]

theorem handler_bodyReadErr (cfg : apiConfig) (o : Outcomes) (w : World) (videoID : Nat)
    (token : String) (video : Video)
    (hid : o.videoID = some videoID) (htok : o.bearerToken = some token)
    (hjwt : o.validateJWT token cfg.jwtSecret = some video.UserID)
    (hget : GetVideo w.db videoID = some video)
    (hrd : o.bodyRead ⟨some maxMemory⟩ 0 = true) :
    handlerUploadVideo cfg o w =
      (⟨w.trace ++ [Event.getVideo videoID, Event.bodyRead (some maxMemory) 0,
          Event.writeHeader 400], w.files, w.db⟩, Exit.returned) := by
  simp [handlerUploadVideo, hid, htok, hjwt, World.log, hget, hrd, MaxBytesReader]

theorem handler_formFileErr (cfg : apiConfig) (o : Outcomes) (w : World) (videoID : Nat)
    (token : String) (video : Video)
    (hid : o.videoID = some videoID) (htok : o.bearerToken = some token)
    (hjwt : o.validateJWT token cfg.jwtSecret = some video.UserID)
    (hget : GetVideo w.db videoID = some video)
    (hrd : o.bodyRead ⟨some maxMemory⟩ 0 = false) (hff : o.formFile ⟨none⟩ = true) :
    handlerUploadVideo cfg o w =
      (⟨w.trace ++ [Event.getVideo videoID, Event.bodyRead (some maxMemory) 0,
          Event.formFile "video" none,
          Event.respondWithError StatusInternalServerError "Cannot read file contents"],
        w.files, w.db⟩, Exit.returned) := by
  simp [handlerUploadVideo, hid, htok, hjwt, World.log, hget, hrd, hff, MaxBytesReader,
    respondWithError]

theorem handler_atGate (cfg : apiConfig) (o : Outcomes) (w : World) (videoID : Nat)
    (token : String) (video : Video)
    (hid : o.videoID = some videoID) (htok : o.bearerToken = some token)
    (hjwt : o.validateJWT token cfg.jwtSecret = some video.UserID)
    (hget : GetVideo w.db videoID = some video)
    (hrd : o.bodyRead ⟨some maxMemory⟩ 0 = false) (hff : o.formFile ⟨none⟩ = false) :
    handlerUploadVideo cfg o w =
      deferred (closeFile "video") (gateAndStage o video
        ⟨w.trace ++ [Event.getVideo videoID, Event.bodyRead (some maxMemory) 0,
          Event.formFile "video" none], w.files, w.db⟩) := by
  simp [handlerUploadVideo, hid, htok, hjwt, World.log, hget, hrd, hff, MaxBytesReader]

theorem handlerUploadVideo_summary (cfg : apiConfig) (o : Outcomes) (w : World) :
    ∃ l, (handlerUploadVideo cfg o w).1.trace = w.trace ++ l ∧
      Summary o [200, 400, 401, 404, 415, 417, 418, 500] l w.db (handlerUploadVideo cfg o w).1.db := by
  cases hid : o.videoID with
  | none =>
    refine ⟨[.respondWithError StatusBadRequest "Invalid ID"],
      by simp [handlerUploadVideo, hid, respondWithError, World.log], ?_⟩
    constructor <;>
      simp [handlerUploadVideo, hid, respondWithError, World.log, StatusBadRequest,
        StatusInternalServerError]
  | some videoID =>
    cases htok : o.bearerToken with
    | none =>
      refine ⟨[.respondWithError StatusUnauthorized "Couldn't find JWT"],
        by simp [handlerUploadVideo, hid, htok, respondWithError, World.log], ?_⟩
      constructor <;>
        simp [handlerUploadVideo, hid, htok, respondWithError, World.log, StatusUnauthorized,
          StatusInternalServerError]
    | some token =>
      cases hjwt : o.validateJWT token cfg.jwtSecret with
      | none =>
        refine ⟨[.respondWithError StatusUnauthorized "Couldn't validate JWT"],
          by simp [handlerUploadVideo, hid, htok, hjwt, respondWithError, World.log], ?_⟩
        constructor <;>
          simp [handlerUploadVideo, hid, htok, hjwt, respondWithError, World.log,
            StatusUnauthorized, StatusInternalServerError]
      | some userID =>
        cases hget : GetVideo w.db videoID with
        | none =>
          refine ⟨[.getVideo videoID, .respondWithError StatusNotFound "Couldn't find video"],
            by simp [handlerUploadVideo, hid, htok, hjwt, hget, respondWithError, World.log], ?_⟩
          constructor <;>
            simp [handlerUploadVideo, hid, htok, hjwt, hget, respondWithError, World.log,
              StatusNotFound, StatusInternalServerError]
        | some video =>
          by_cases hne : video.UserID = userID
          · subst hne
            cases hrd : o.bodyRead ⟨some maxMemory⟩ 0 with
            | true =>
              rw [handler_bodyReadErr cfg o w videoID token video hid htok hjwt hget hrd]
              refine ⟨_, rfl, ?_⟩
              constructor <;> simp [StatusInternalServerError]
            | false =>
              cases hff : o.formFile ⟨none⟩ with
              | true =>
                rw [handler_formFileErr cfg o w videoID token video hid htok hjwt hget hrd hff]
                refine ⟨_, rfl, ?_⟩
                constructor <;> simp [StatusInternalServerError]
              | false =>
                rw [handler_atGate cfg o w videoID token video hid htok hjwt hget hrd hff]
                obtain ⟨l, hl, hs⟩ := gateAndStage_summary o video
                  ⟨w.trace ++ [Event.getVideo videoID, Event.bodyRead (some maxMemory) 0,
                    Event.formFile "video" none], w.files, w.db⟩
                refine ⟨[Event.getVideo videoID, Event.bodyRead (some maxMemory) 0,
                    Event.formFile "video" none] ++ l ++ [.closeFile "video"], ?_, ?_⟩
                · simp only [deferred, closeFile, World.log]
                  rw [hl]
                  simp
                · exact hs.wrap (by decide) _ _
                    (by simp [Quiet, StatusInternalServerError])
                    (by simp [Quiet, StatusInternalServerError])
          · rw [handler_mismatch cfg o w videoID userID token video hid htok hjwt hget hne]
            refine ⟨_, rfl, ?_⟩
            constructor <;>
              simp [StatusInternalServerError, StatusUnauthorized]

theorem processStaged_probeErr (o : Outcomes) (video : Video) (media mediaType tn : String)
    (w : World) (hra : o.readAllErr = false) (hwr : o.tempWriteErr = false)
    (hp : o.ffprobe tn = .execError ∨ o.ffprobe tn = .badJSON) :
    processStaged o video media mediaType tn w =
      (⟨w.trace ++ [.readAll, .tempWrite tn, .seek tn, .ffprobe tn,
          .respondWithError StatusInternalServerError "getVideoAspectRatio failed"],
        w.files, w.db⟩, Exit.returned) := by
  rcases hp with hp | hp <;>
    simp [processStaged, getVideoAspectRatio, hra, hwr, hp, World.log, respondWithError]

theorem processStaged_noStreams (o : Outcomes) (video : Video) (media mediaType tn : String)
    (w : World) (hra : o.readAllErr = false) (hwr : o.tempWriteErr = false)
    (hp : o.ffprobe tn = .parsed []) :
    processStaged o video media mediaType tn w =
      (⟨w.trace ++ [.readAll, .tempWrite tn, .seek tn, .ffprobe tn], w.files, w.db⟩,
        Exit.panicked "index out of range [0] with length 0") := by
  simp [processStaged, getVideoAspectRatio, hra, hwr, hp, World.log]

theorem processStaged_rewriteErr (o : Outcomes) (video : Video) (media mediaType tn : String)
    (w : World) (s0 : Stream) (ss : List Stream) (left : Bool)
    (hra : o.readAllErr = false) (hwr : o.tempWriteErr = false)
    (hp : o.ffprobe tn = .parsed (s0 :: ss))
    (hf : o.ffmpeg tn (tn ++ ".processing") = .failed left) :
    processStaged o video media mediaType tn w =
      (⟨w.trace ++ [.readAll, .tempWrite tn, .seek tn, .ffprobe tn,
          .ffmpeg tn (tn ++ ".processing"),
          .respondWithError StatusTeapot "processVideoForFastStart failed"],
        if left then resolve o.cwd (tn ++ ".processing") :: w.files else w.files, w.db⟩,
        Exit.returned) := by
  cases left <;>
    simp [processStaged, getVideoAspectRatio, processVideoForFastStart, hra, hwr, hp, hf,
      World.log, respondWithError]

theorem processStaged_openErr (o : Outcomes) (video : Video) (media mediaType tn : String)
    (w : World) (s0 : Stream) (ss : List Stream)
    (hra : o.readAllErr = false) (hwr : o.tempWriteErr = false)
    (hp : o.ffprobe tn = .parsed (s0 :: ss))
    (hf : o.ffmpeg tn (tn ++ ".processing") = .done) (hop : o.openErr = true) :
    processStaged o video media mediaType tn w =
      (⟨w.trace ++ [.readAll, .tempWrite tn, .seek tn, .ffprobe tn,
          .ffmpeg tn (tn ++ ".processing"), .openFile (tn ++ ".processing"),
          .respondWithError StatusTeapot "Failed to process video to new file"],
        resolve o.cwd (tn ++ ".processing") :: w.files, w.db⟩, Exit.returned) := by
  simp [processStaged, getVideoAspectRatio, processVideoForFastStart, hra, hwr, hp, hf, hop,
    World.log, respondWithError]

theorem processStaged_stored (o : Outcomes) (video : Video) (media mediaType tn : String)
    (w : World) (s0 : Stream) (ss : List Stream)
    (hra : o.readAllErr = false) (hwr : o.tempWriteErr = false)
    (hp : o.ffprobe tn = .parsed (s0 :: ss))
    (hf : o.ffmpeg tn (tn ++ ".processing") = .done) (hop : o.openErr = false) :
    processStaged o video media mediaType tn w =
      deferred (closeFile (tn ++ ".processing"))
        (deferred (osRemove o.cwd (tn ++ ".processing"))
          (storeAndRecord o video (orientation (classify s0.Width s0.Height)) media mediaType
            ⟨w.trace ++ [.readAll, .tempWrite tn, .seek tn, .ffprobe tn,
              .ffmpeg tn (tn ++ ".processing"), .openFile (tn ++ ".processing")],
              resolve o.cwd (tn ++ ".processing") :: w.files, w.db⟩)) := by
  simp [processStaged, getVideoAspectRatio, processVideoForFastStart, hra, hwr, hp, hf, hop,
    World.log]

/-- Object key built at lines 135-138. -/
theorem storeAndRecord_putErr (o : Outcomes) (video : Video) (ratio media mediaType : String)
    (w : World) (hput : o.putObjectErr = true) :
    storeAndRecord o video ratio media mediaType w =
      (⟨w.trace ++ [.randRead 32,
          .putObject (o.getenv "S3_BUCKET") (objectKey o ratio media) mediaType,
          .respondWithError StatusExpectationFailed "Failed to create object in remote bucket"],
        w.files, w.db⟩, Exit.returned) := by
  simp [storeAndRecord, hput, World.log, respondWithError, objectKey]

theorem storeAndRecord_updErr (o : Outcomes) (video : Video) (ratio media mediaType : String)
    (w : World) (hput : o.putObjectErr = false) (hupd : o.updateVideoErr = true) :
    storeAndRecord o video ratio media mediaType w =
      (⟨w.trace ++ [.randRead 32,
          .putObject (o.getenv "S3_BUCKET") (objectKey o ratio media) mediaType,
          .updateVideo { video with
            VideoURL := some (o.getenv "S3_CF_DISTRO" ++ "/" ++ objectKey o ratio media) },
          .respondWithError StatusInternalServerError "Failed to update video url in database"],
        w.files, w.db⟩, Exit.returned) := by
  simp [storeAndRecord, hput, hupd, World.log, respondWithError, objectKey]

theorem storeAndRecord_ok (o : Outcomes) (video : Video) (ratio media mediaType : String)
    (w : World) (hput : o.putObjectErr = false) (hupd : o.updateVideoErr = false) :
    storeAndRecord o video ratio media mediaType w =
      (⟨w.trace ++ [.randRead 32,
          .putObject (o.getenv "S3_BUCKET") (objectKey o ratio media) mediaType,
          .updateVideo { video with
            VideoURL := some (o.getenv "S3_CF_DISTRO" ++ "/" ++ objectKey o ratio media) },
          .respondWithJSON StatusOK { video with
            VideoURL := some (o.getenv "S3_CF_DISTRO" ++ "/" ++ objectKey o ratio media) }],
        w.files,
        UpdateVideo w.db { video with
            VideoURL := some (o.getenv "S3_CF_DISTRO" ++ "/" ++ objectKey o ratio media) }⟩,
        Exit.returned) := by
  simp [storeAndRecord, hput, hupd, World.log, respondWithJSON, objectKey]

theorem handler_staged (cfg : apiConfig) (o : Outcomes) (files : List String) (db : List Video)
    (videoID : Nat) (token : String) (video : Video) (rnd : String)
    (hg : ReachesGate cfg o db videoID token video)
    (hmt : o.mediaType = "video/mp4") (hct : o.createTemp = some rnd) :
    handlerUploadVideo cfg o ⟨[], files, db⟩ =
      deferred (closeFile "video")
        (deferred (osRemove o.cwd "tubely-upload.mp4")
          (deferred (closeFile (tempName o rnd))
            (processStaged o video "mp4" "video/mp4" (tempName o rnd)
              ⟨[.getVideo videoID, .bodyRead (some maxMemory) 0, .formFile "video" none] ++
                (if o.mediaTypeErr then
                  [Event.respondWithError StatusBadRequest "Header must include Content-Type"]
                 else []) ++ [.createTemp "" "tubely-upload.mp4"],
               tempName o rnd :: files, db⟩))) := by
  rw [handler_atGate cfg o ⟨[], files, db⟩ videoID token video hg.hid hg.htok hg.hjwt hg.hget
    hg.hrd hg.hff, gateAndStage_staged o video _ rnd hmt hct]
  unfold afterParse tempName
  cases o.mediaTypeErr <;> simp [World.log, respondWithError]


/-! ## Ownership check -/

/-- C1: when the authenticated caller differs from the owner of the fetched record,
the handler answers 401 once and returns; its whole trace is the record lookup
followed by that response, so no temp file is created, no external process runs,
and neither PutObject nor UpdateVideo is called; files and store are untouched. -/
theorem handlerUploadVideo_owner_mismatch (cfg : apiConfig) (o : Outcomes)
    (files : List String) (db : List Video) (videoID userID : Nat) (token : String)
    (video : Video)
    (hid : o.videoID = some videoID) (htok : o.bearerToken = some token)
    (hjwt : o.validateJWT token cfg.jwtSecret = some userID)
    (hget : GetVideo db videoID = some video) (hne : video.UserID ≠ userID) :
    (handlerUploadVideo cfg o ⟨[], files, db⟩).2 = Exit.returned ∧
    (handlerUploadVideo cfg o ⟨[], files, db⟩).1.trace =
      [Event.getVideo videoID,
       Event.respondWithError StatusUnauthorized "Video does not belong to user"] ∧
    statuses (handlerUploadVideo cfg o ⟨[], files, db⟩).1.trace = [StatusUnauthorized] ∧
    (handlerUploadVideo cfg o ⟨[], files, db⟩).1.trace.any
      (fun e => isCreateTemp e || isProcessCall e || isPutObject e || isUpdateVideo e)
      = false ∧
    (handlerUploadVideo cfg o ⟨[], files, db⟩).1.files = files ∧
    (handlerUploadVideo cfg o ⟨[], files, db⟩).1.db = db := by
  rw [handler_mismatch cfg o ⟨[], files, db⟩ videoID userID token video hid htok hjwt hget hne]
  simp

/-- Witness for C1: user 2 uploads for record 7, which user 1 owns. -/
theorem handlerUploadVideo_owner_mismatch_witness :
    statuses (handlerUploadVideo ⟨"secret"⟩ intruderOutcomes sampleWorld).1.trace = [401] ∧
    (handlerUploadVideo ⟨"secret"⟩ intruderOutcomes sampleWorld).1.trace.any
      (fun e => isCreateTemp e || isProcessCall e || isPutObject e || isUpdateVideo e)
      = false :=
  have h := handlerUploadVideo_owner_mismatch ⟨"secret"⟩ intruderOutcomes [] [⟨7, 1, none, none⟩]
    7 2 "token" ⟨7, 1, none, none⟩ rfl rfl rfl (by decide) (by decide)
  ⟨h.2.2.1, h.2.2.2.1⟩

/-! ## Content type gate -/

/-- C3: for a request that passed the ownership check and both body reads, a media
type other than exactly `video/mp4` is answered with 415 and the handler returns
without calling `os.CreateTemp`, the files being untouched; when the media type was
parsed without error, 415 is the only response. A media type of exactly `video/mp4`
is never answered with 415 and `os.CreateTemp` is called. -/
theorem handlerUploadVideo_media_type_gate (cfg : apiConfig) (o : Outcomes)
    (files : List String) (db : List Video) (videoID : Nat) (token : String) (video : Video)
    (hg : ReachesGate cfg o db videoID token video) :
    (o.mediaType ≠ "video/mp4" →
      (handlerUploadVideo cfg o ⟨[], files, db⟩).2 = Exit.returned ∧
      StatusUnsupportedMediaType ∈
        statuses (handlerUploadVideo cfg o ⟨[], files, db⟩).1.trace ∧
      (o.mediaTypeErr = false →
        statuses (handlerUploadVideo cfg o ⟨[], files, db⟩).1.trace =
          [StatusUnsupportedMediaType]) ∧
      (handlerUploadVideo cfg o ⟨[], files, db⟩).1.trace.any isCreateTemp = false ∧
      (handlerUploadVideo cfg o ⟨[], files, db⟩).1.files = files) ∧
    (o.mediaType = "video/mp4" →
      Event.createTemp "" "tubely-upload.mp4" ∈
        (handlerUploadVideo cfg o ⟨[], files, db⟩).1.trace ∧
      StatusUnsupportedMediaType ∉ statuses (handlerUploadVideo cfg o ⟨[], files, db⟩).1.trace) := by
  have hat := handler_atGate cfg o ⟨[], files, db⟩ videoID token video hg.hid hg.htok hg.hjwt
    hg.hget hg.hrd hg.hff
  constructor
  · intro hne
    rw [hat, gateAndStage_reject o video _ hne]
    unfold afterParse
    cases o.mediaTypeErr <;> simp [deferred, closeFile, respondWithError, World.log]
  · intro hmt
    cases hct : o.createTemp with
    | none =>
      rw [hat, gateAndStage_noTemp o video _ hmt hct]
      unfold afterParse
      cases o.mediaTypeErr <;>
        simp [deferred, closeFile, respondWithError, World.log, StatusUnsupportedMediaType,
          StatusBadRequest, StatusInternalServerError]
    | some rnd =>
      rw [handler_staged cfg o files db videoID token video rnd hg hmt hct]
      obtain ⟨l, hl, hs⟩ := processStaged_summary o video "mp4" "video/mp4" (tempName o rnd)
        ⟨[.getVideo videoID, .bodyRead (some maxMemory) 0, .formFile "video" none] ++
          (if o.mediaTypeErr then
            [Event.respondWithError StatusBadRequest "Header must include Content-Type"]
           else []) ++ [.createTemp "" "tubely-upload.mp4"],
         tempName o rnd :: files, db⟩
      simp only [deferred, closeFile, osRemove, World.log]
      rw [hl]
      constructor
      · simp
      · have hc := hs.codes
        simp only [statuses_append, List.mem_append, not_or]
        refine ⟨⟨⟨⟨?_, ?_⟩, ?_⟩, ?_⟩, ?_⟩
        · cases o.mediaTypeErr <;> simp [StatusUnsupportedMediaType, StatusBadRequest]
        · intro h
          have := hc _ h
          simp [StatusUnsupportedMediaType] at this
        · simp
        · simp
        · simp

/-- Witness for C3: an owner's upload declared as `image/png`. -/
theorem handlerUploadVideo_media_type_gate_witness :
    statuses (handlerUploadVideo ⟨"secret"⟩ pngOutcomes sampleWorld).1.trace = [415] ∧
    (handlerUploadVideo ⟨"secret"⟩ pngOutcomes sampleWorld).1.trace.any isCreateTemp = false :=
  have h := (handlerUploadVideo_media_type_gate ⟨"secret"⟩ pngOutcomes [] [⟨7, 1, none, none⟩]
    7 "token" ⟨7, 1, none, none⟩ ⟨rfl, rfl, rfl, by decide, rfl, rfl⟩).1 (by decide)
  ⟨h.2.2.1 rfl, h.2.2.2.1⟩

/-! ## Unparseable content type -/

/-- C7: with no parseable Content-Type on the part (the parser returns the empty
media type and an error), `respondWithError` is called twice, with 400 and then
with 415: the 400 branch has no `return`. When the parser returns `video/mp4`
together with an error, the 400 is followed by the whole pipeline and a 200. -/
theorem handlerUploadVideo_absent_content_type_two_responses :
    errorResponses (handlerUploadVideo ⟨"secret"⟩ absentTypeOutcomes sampleWorld).1.trace =
      [StatusBadRequest, StatusUnsupportedMediaType] ∧
    (handlerUploadVideo ⟨"secret"⟩ absentTypeOutcomes sampleWorld).1.trace =
      [.getVideo 7, .bodyRead (some maxMemory) 0, .formFile "video" none,
       .respondWithError StatusBadRequest "Header must include Content-Type",
       .respondWithError StatusUnsupportedMediaType "Video upload must be .mp4",
       .closeFile "video"] ∧
    statuses (handlerUploadVideo ⟨"secret"⟩ paramErrorOutcomes sampleWorld).1.trace =
      [StatusBadRequest, StatusOK] ∧
    (handlerUploadVideo ⟨"secret"⟩ paramErrorOutcomes sampleWorld).1.trace.any isPutObject
      = true := by
  decide

/-! ## Store ordering -/

/-- Every status code the handler writes is one of 200, 400, 401, 404, 415, 417,
418 and 500; in particular 413 is never written. -/
theorem handlerUploadVideo_codes (cfg : apiConfig) (o : Outcomes)
    (files : List String) (db : List Video) :
    (∀ c ∈ statuses (handlerUploadVideo cfg o ⟨[], files, db⟩).1.trace,
      c ∈ [200, 400, 401, 404, 415, 417, 418, 500]) ∧
    StatusRequestEntityTooLarge ∉
      statuses (handlerUploadVideo cfg o ⟨[], files, db⟩).1.trace := by
  obtain ⟨l, hl, hs⟩ := handlerUploadVideo_summary cfg o ⟨[], files, db⟩
  simp only [List.nil_append] at hl
  rw [hl]
  refine ⟨hs.codes, ?_⟩
  intro h
  have := hs.codes _ h
  simp [StatusRequestEntityTooLarge] at this

/-! ## Runs that reach the probe -/

theorem handler_probe (cfg : apiConfig) (o : Outcomes) (files : List String) (db : List Video)
    (videoID : Nat) (token : String) (video : Video) (rnd : String)
    (hp : ReachesProbe cfg o db videoID token video rnd) :
    handlerUploadVideo cfg o ⟨[], files, db⟩ =
      deferred (closeFile "video")
        (deferred (osRemove o.cwd "tubely-upload.mp4")
          (deferred (closeFile (tempName o rnd))
            (processStaged o video "mp4" "video/mp4" (tempName o rnd)
              ⟨[.getVideo videoID, .bodyRead (some maxMemory) 0, .formFile "video" none,
                .createTemp "" "tubely-upload.mp4"], tempName o rnd :: files, db⟩))) := by
  rw [handler_staged cfg o files db videoID token video rnd hp.gate hp.hmt hp.hct, hp.hparse]
  rfl

/-- C9, as the code has it: once the upload is staged, an error of
`getVideoAspectRatio` is answered with 500, an error of `processVideoForFastStart`
with 418, and an unreadable rewritten file with 418; in all three cases this is the
only response, the handler returns, and neither PutObject nor UpdateVideo is called. -/
theorem handlerUploadVideo_tool_failure_codes (cfg : apiConfig) (o : Outcomes)
    (files : List String) (db : List Video) (videoID : Nat) (token : String) (video : Video)
    (rnd : String) (hp : ReachesProbe cfg o db videoID token video rnd) :
    ((o.ffprobe (tempName o rnd) = .execError ∨ o.ffprobe (tempName o rnd) = .badJSON) →
      (handlerUploadVideo cfg o ⟨[], files, db⟩).2 = Exit.returned ∧
      statuses (handlerUploadVideo cfg o ⟨[], files, db⟩).1.trace =
        [StatusInternalServerError] ∧
      (handlerUploadVideo cfg o ⟨[], files, db⟩).1.trace.any
        (fun e => isPutObject e || isUpdateVideo e) = false) ∧
    (∀ s0 ss left, o.ffprobe (tempName o rnd) = .parsed (s0 :: ss) →
      o.ffmpeg (tempName o rnd) (tempName o rnd ++ ".processing") = .failed left →
      (handlerUploadVideo cfg o ⟨[], files, db⟩).2 = Exit.returned ∧
      statuses (handlerUploadVideo cfg o ⟨[], files, db⟩).1.trace = [StatusTeapot] ∧
      (handlerUploadVideo cfg o ⟨[], files, db⟩).1.trace.any
        (fun e => isPutObject e || isUpdateVideo e) = false) ∧
    (∀ s0 ss, o.ffprobe (tempName o rnd) = .parsed (s0 :: ss) →
      o.ffmpeg (tempName o rnd) (tempName o rnd ++ ".processing") = .done →
      o.openErr = true →
      (handlerUploadVideo cfg o ⟨[], files, db⟩).2 = Exit.returned ∧
      statuses (handlerUploadVideo cfg o ⟨[], files, db⟩).1.trace = [StatusTeapot] ∧
      (handlerUploadVideo cfg o ⟨[], files, db⟩).1.trace.any
        (fun e => isPutObject e || isUpdateVideo e) = false) := by
  have hrun := handler_probe cfg o files db videoID token video rnd hp
  refine ⟨?_, ?_, ?_⟩
  · intro hprobe
    rw [hrun, processStaged_probeErr o video _ _ _ _ hp.hra hp.hwr hprobe]
    simp [deferred, closeFile, osRemove, World.log]
  · intro s0 ss left hprobe hff
    rw [hrun, processStaged_rewriteErr o video _ _ _ _ s0 ss left hp.hra hp.hwr hprobe hff]
    simp [deferred, closeFile, osRemove, World.log]
  · intro s0 ss hprobe hff hop
    rw [hrun, processStaged_openErr o video _ _ _ _ s0 ss hp.hra hp.hwr hprobe hff hop]
    simp [deferred, closeFile, osRemove, World.log]

/-- Witness for C9: the inspection tool fails on an owner's upload. -/
theorem handlerUploadVideo_tool_failure_codes_witness :
    statuses (handlerUploadVideo ⟨"secret"⟩ probeFailOutcomes sampleWorld).1.trace = [500] :=
  ((handlerUploadVideo_tool_failure_codes ⟨"secret"⟩ probeFailOutcomes [] [⟨7, 1, none, none⟩]
    7 "token" ⟨7, 1, none, none⟩ "123456789"
    ⟨⟨rfl, rfl, rfl, by decide, rfl, rfl⟩, rfl, rfl, rfl, rfl, rfl⟩).1 (Or.inl rfl)).2.1

/-- Counterexample to C9 as stated: a failing remux tool is answered with 418, and
500 is not written. -/
theorem handlerUploadVideo_rewrite_failure_not_500 :
    statuses (handlerUploadVideo ⟨"secret"⟩ rewriteFailOutcomes sampleWorld).1.trace =
      [StatusTeapot] ∧
    StatusInternalServerError ∉
      statuses (handlerUploadVideo ⟨"secret"⟩ rewriteFailOutcomes sampleWorld).1.trace := by
  have hrun := handler_probe ⟨"secret"⟩ rewriteFailOutcomes [] [⟨7, 1, none, none⟩] 7 "token"
    ⟨7, 1, none, none⟩ "123456789" ⟨⟨rfl, rfl, rfl, by decide, rfl, rfl⟩, rfl, rfl, rfl, rfl, rfl⟩
  have hst := processStaged_rewriteErr rewriteFailOutcomes ⟨7, 1, none, none⟩ "mp4" "video/mp4"
    (tempName rewriteFailOutcomes "123456789")
    ⟨[.getVideo 7, .bodyRead (some maxMemory) 0, .formFile "video" none,
      .createTemp "" "tubely-upload.mp4"], tempName rewriteFailOutcomes "123456789" :: [],
      [⟨7, 1, none, none⟩]⟩ ⟨1280, 720⟩ [] true rfl rfl rfl rfl
  have hw : sampleWorld = ⟨[], [], [⟨7, 1, none, none⟩]⟩ := rfl
  rw [hw, hrun, hst]
  simp [deferred, closeFile, osRemove, World.log, StatusTeapot, StatusInternalServerError]

/-! ## binary64 rounding -/

theorem roundHalfEven_err (y : ℚ) : |(roundHalfEven y : ℚ) - y| ≤ 1 / 2 := by
  have h1 := Int.floor_le y
  have h2 := Int.lt_floor_add_one y
  unfold roundHalfEven
  split_ifs with ha hb hc
  · rw [abs_le]; constructor <;> linarith
  · push_cast; rw [abs_le]; constructor <;> linarith
  · rw [abs_le]; constructor <;> linarith
  · push_cast; rw [abs_le]; constructor <;> linarith

theorem roundHalfEven_of_near (y : ℚ) (n : ℤ) (h : |y - n| < 1 / 2) : roundHalfEven y = n := by
  have h1 := roundHalfEven_err y
  rw [abs_lt] at h
  rw [abs_le] at h1
  have h2 : |((roundHalfEven y - n : ℤ) : ℚ)| < 1 := by
    push_cast
    rw [abs_lt]
    constructor <;> linarith
  have h3 : |roundHalfEven y - n| < 1 := by exact_mod_cast h2
  have h4 := Int.abs_lt_one_iff.mp h3
  omega

theorem roundHalfEven_intCast (n : ℤ) : roundHalfEven (n : ℚ) = n :=
  roundHalfEven_of_near _ n (by simp)

theorem ulp_pos (x : ℚ) : 0 < ulp x := by
  unfold ulp
  positivity

theorem ulp_le (x : ℚ) (hx : 0 < x) : ulp x * 2 ^ 52 ≤ x := by
  have h := Int.zpow_log_le_self (b := 2) (by norm_num) hx
  unfold ulp
  rw [zpow_sub₀ (by norm_num)]
  have : ((2 : ℕ) : ℚ) = 2 := by norm_num
  rw [this] at h
  have h52 : (2 : ℚ) ^ (52 : ℤ) = 2 ^ 52 := by norm_cast
  rw [h52]
  rw [div_mul_cancel₀ _ (by positivity)]
  exact h

theorem log_eq_of_bounds (x : ℚ) (e : ℤ) (h1 : (2 : ℚ) ^ e ≤ x) (h2 : x < 2 ^ (e + 1)) :
    Int.log 2 x = e := by
  have hx : 0 < x := lt_of_lt_of_le (by positivity) h1
  have ha : e ≤ Int.log 2 x := by
    rw [← Int.zpow_le_iff_le_log (by norm_num) hx]
    simpa using h1
  have hb : Int.log 2 x < e + 1 := by
    rw [← Int.lt_zpow_iff_log_lt (by norm_num) hx]
    simpa using h2
  omega

theorem roundPos_err (x : ℚ) (hx : 0 < x) : |roundPos x - x| ≤ x / 2 ^ 53 := by
  have hu := ulp_pos x
  have hle := ulp_le x hx
  have h := roundHalfEven_err (x / ulp x)
  unfold roundPos
  have h1 : (roundHalfEven (x / ulp x) : ℚ) * ulp x - x =
      ((roundHalfEven (x / ulp x) : ℚ) - x / ulp x) * ulp x := by
    field_simp
  rw [h1, abs_mul, abs_of_pos hu]
  have h2 : |(roundHalfEven (x / ulp x) : ℚ) - x / ulp x| * ulp x ≤ 1 / 2 * ulp x :=
    mul_le_mul_of_nonneg_right h hu.le
  have h3 : 1 / 2 * ulp x ≤ x / 2 ^ 53 := by
    rw [le_div_iff₀ (by positivity)]
    linarith
  linarith

theorem fl_err (y : ℚ) : |fl y - y| ≤ |y| / 2 ^ 53 := by
  unfold fl
  split_ifs with h0 hneg
  · simp [h0]
  · have h := roundPos_err (-y) (by linarith)
    rw [abs_of_neg hneg]
    have : -roundPos (-y) - y = -(roundPos (-y) - -y) := by ring
    rw [this, abs_neg]
    exact h
  · have hpos : 0 < y := lt_of_le_of_ne (not_lt.mp hneg) (Ne.symm h0)
    rw [abs_of_pos hpos]
    exact roundPos_err y hpos

theorem roundPos_eval (x : ℚ) (e m : ℤ) (h1 : (2 : ℚ) ^ e ≤ x) (h2 : x < 2 ^ (e + 1))
    (hm : |x / 2 ^ (e - 52) - m| < 1 / 2) : roundPos x = m * 2 ^ (e - 52) := by
  unfold roundPos ulp
  rw [log_eq_of_bounds x e h1 h2, roundHalfEven_of_near _ m hm]

theorem fl_eval (x : ℚ) (e m : ℤ) (h1 : (2 : ℚ) ^ e ≤ x) (h2 : x < 2 ^ (e + 1))
    (hm : |x / 2 ^ (e - 52) - m| < 1 / 2) : fl x = m * 2 ^ (e - 52) := by
  have hx : 0 < x := lt_of_lt_of_le (by positivity) h1
  unfold fl
  rw [if_neg hx.ne', if_neg (not_lt.mpr hx.le)]
  exact roundPos_eval x e m h1 h2 hm

theorem fl_neg (x : ℚ) : fl (-x) = - fl x := by
  unfold fl
  rcases lt_trichotomy x 0 with h | h | h
  · have h1 : ¬ (-x = 0) := by intro h'; linarith
    have h2 : ¬ (-x < 0) := by linarith
    have h3 : ¬ (x = 0) := h.ne
    rw [if_neg h1, if_neg h2, if_neg h3, if_pos h, neg_neg]
  · subst h
    simp
  · have h1 : ¬ (-x = 0) := by intro h'; linarith
    have h2 : -x < 0 := by linarith
    have h3 : ¬ (x = 0) := h.ne'
    have h4 : ¬ (x < 0) := by linarith
    rw [if_neg h1, if_pos h2, if_neg h3, if_neg h4, neg_neg]

theorem fl_intCast (n : ℤ) (h0 : 0 < n) (h1 : n < 2 ^ 53) : fl (n : ℚ) = n := by
  have hx : (0 : ℚ) < n := by exact_mod_cast h0
  have hL : Int.log 2 (n : ℚ) < 53 := by
    rw [← Int.lt_zpow_iff_log_lt (by norm_num) hx]
    have h2 : ((n : ℚ)) < ((2 ^ 53 : ℤ) : ℚ) := by exact_mod_cast h1
    have h3 : (((2 : ℕ) : ℚ)) ^ (53 : ℤ) = ((2 ^ 53 : ℤ) : ℚ) := by norm_num
    rw [h3]
    exact h2
  obtain ⟨k, hk⟩ := Int.eq_ofNat_of_zero_le (show 0 ≤ 52 - Int.log 2 (n : ℚ) by omega)
  have hu : ulp (n : ℚ) = ((2 : ℚ) ^ k)⁻¹ := by
    unfold ulp
    have : Int.log 2 (n : ℚ) - 52 = -(k : ℤ) := by omega
    rw [this, zpow_neg, zpow_natCast]
  unfold fl
  rw [if_neg hx.ne', if_neg (not_lt.mpr hx.le)]
  unfold roundPos
  rw [hu]
  have h2 : (n : ℚ) / ((2 : ℚ) ^ k)⁻¹ = ((n * 2 ^ k : ℤ) : ℚ) := by
    push_cast
    field_simp
  rw [h2, roundHalfEven_intCast]
  push_cast
  field_simp

theorem fl_sixteen_ninths : fl (16 / 9) = 8006399337547548 / 2 ^ 52 := by
  have h := fl_eval (16 / 9) 0 8006399337547548 (by norm_num) (by norm_num)
    (by rw [abs_lt]; constructor <;> norm_num)
  rw [h]
  norm_num

theorem fl_hundredth : fl (1 / 100) = 5764607523034235 / 2 ^ 59 := by
  have h := fl_eval (1 / 100) (-7) 5764607523034235 (by norm_num) (by norm_num)
    (by rw [abs_lt]; constructor <;> norm_num)
  rw [h]
  norm_num

theorem fl_nine_sixteenths : fl (9 / 16) = 9 / 16 := by
  have h := fl_eval (9 / 16) (-1) 5066549580791808 (by norm_num) (by norm_num)
    (by rw [abs_lt]; constructor <;> norm_num)
  rw [h]
  norm_num

/-- A quotient within `1/100 - 1/(900 * 2^40)` of the target passes the tolerance test. -/
theorem tolerance_pass (x c T q : ℚ) (hx0 : 0 < x) (hx2 : x < 2)
    (hq : |x - q| ≤ 1 / 100 - 1 / (900 * 2 ^ 40)) (hc : |c - q| ≤ 1 / 2 ^ 52)
    (hT : 1 / 100 ≤ T) : |fl (fl x - c)| < T := by
  have hr := fl_err x
  have hd := fl_err (fl x - c)
  rw [abs_of_pos hx0] at hr
  rw [abs_le] at hr hq hc
  have hrc : |fl x - c| ≤ 1 / 100 - 1 / (900 * 2 ^ 40) + 2 / 2 ^ 53 + 1 / 2 ^ 52 := by
    rw [abs_le]
    constructor <;> linarith
  have hd2 := abs_le.mp hd
  have hrc2 := abs_le.mp hrc
  rw [abs_lt]
  constructor <;> linarith

/-- A quotient farther than `1/100 + 1/(900 * 2^40)` from the target fails the test. -/
theorem tolerance_fail (x c T q : ℚ) (hx0 : 0 < x) (hq2 : q ≤ 2)
    (hq : 1 / 100 + 1 / (900 * 2 ^ 40) ≤ |x - q|) (hc : |c - q| ≤ 1 / 2 ^ 52)
    (hT : T ≤ 1 / 100 + 1 / 2 ^ 60) : T ≤ |fl (fl x - c)| := by
  have hr := fl_err x
  have hd := fl_err (fl x - c)
  rw [abs_of_pos hx0] at hr
  rw [abs_le] at hr hc
  rcases le_abs'.mp hq with h | h
  · -- x ≤ q - g
    have h1 : fl x - c < 0 := by linarith
    rw [abs_of_neg h1] at hd
    have hd2 := abs_le.mp hd
    have h2 : fl (fl x - c) ≤ -T := by linarith
    have h3 := neg_le_abs (fl (fl x - c))
    linarith
  · have h1 : 0 < fl x - c := by linarith
    rw [abs_of_pos h1] at hd
    have hd2 := abs_le.mp hd
    have h2 : T ≤ fl (fl x - c) := by linarith
    exact le_trans h2 (le_abs_self _)

theorem boundary_landscape_hi :
    fl (fl (1609 / 900) - 8006399337547548 / 2 ^ 52) = 45035996273705 / 2 ^ 52 := by
  have h1 := fl_eval (1609 / 900) 0 8051435333821253 (by norm_num) (by norm_num)
    (by rw [abs_lt]; constructor <;> norm_num)
  have h2 := fl_eval (45035996273705 / 2 ^ 52) (-7) 5764607523034240 (by norm_num)
    (by norm_num) (by rw [abs_lt]; constructor <;> norm_num)
  rw [h1]
  have h3 : ((8051435333821253 : ℤ) : ℚ) * 2 ^ ((0 : ℤ) - 52) - 8006399337547548 / 2 ^ 52 =
      45035996273705 / 2 ^ 52 := by norm_num
  rw [h3, h2]
  norm_num

theorem boundary_landscape_lo :
    fl (fl (1591 / 900) - 8006399337547548 / 2 ^ 52) = -(45035996273705 / 2 ^ 52) := by
  have h1 := fl_eval (1591 / 900) 0 7961363341273843 (by norm_num) (by norm_num)
    (by rw [abs_lt]; constructor <;> norm_num)
  have h2 := fl_eval (45035996273705 / 2 ^ 52) (-7) 5764607523034240 (by norm_num)
    (by norm_num) (by rw [abs_lt]; constructor <;> norm_num)
  rw [h1]
  have h3 : ((7961363341273843 : ℤ) : ℚ) * 2 ^ ((0 : ℤ) - 52) - 8006399337547548 / 2 ^ 52 =
      -(45035996273705 / 2 ^ 52) := by norm_num
  rw [h3, fl_neg, h2]
  norm_num

theorem boundary_portrait_hi :
    fl (fl (229 / 400) - 9 / 16) = 45035996273705 / 2 ^ 52 := by
  have h1 := fl_eval (229 / 400) (-1) 5156621573339218 (by norm_num) (by norm_num)
    (by rw [abs_lt]; constructor <;> norm_num)
  have h2 := fl_eval (45035996273705 / 2 ^ 52) (-7) 5764607523034240 (by norm_num)
    (by norm_num) (by rw [abs_lt]; constructor <;> norm_num)
  rw [h1]
  have h3 : ((5156621573339218 : ℤ) : ℚ) * 2 ^ ((-1 : ℤ) - 52) - 9 / 16 =
      45035996273705 / 2 ^ 52 := by norm_num
  rw [h3, h2]
  norm_num

theorem boundary_portrait_lo :
    fl (fl (221 / 400) - 9 / 16) = -(45035996273705 / 2 ^ 52) := by
  have h1 := fl_eval (221 / 400) (-1) 4976477588244398 (by norm_num) (by norm_num)
    (by rw [abs_lt]; constructor <;> norm_num)
  have h2 := fl_eval (45035996273705 / 2 ^ 52) (-7) 5764607523034240 (by norm_num)
    (by norm_num) (by rw [abs_lt]; constructor <;> norm_num)
  rw [h1]
  have h3 : ((4976477588244398 : ℤ) : ℚ) * 2 ^ ((-1 : ℤ) - 52) - 9 / 16 =
      -(45035996273705 / 2 ^ 52) := by norm_num
  rw [h3, fl_neg, h2]
  norm_num

/-- Within the stated range the first comparison of `classify` agrees with the exact one. -/
theorem landscape_test_exact (w h : ℤ) (hw : 0 < w) (hh : 0 < h) (hh2 : h ≤ 2 ^ 40) :
    |fl (fl ((w : ℚ) / h) - fl (16 / 9))| < fl (1 / 100) ↔ |(w : ℚ) / h - 16 / 9| < 1 / 100 := by
  rw [fl_sixteen_ninths, fl_hundredth]
  have hwq : (0 : ℚ) < w := by exact_mod_cast hw
  have hhq : (0 : ℚ) < h := by exact_mod_cast hh
  have hh2q : (h : ℚ) ≤ 2 ^ 40 := by exact_mod_cast hh2
  have hx0 : (0 : ℚ) < w / h := div_pos hwq hhq
  have key : (w : ℚ) / h - 16 / 9 = ((9 * w - 16 * h : ℤ) : ℚ) / (9 * h) := by
    push_cast
    field_simp
    ring
  have habs : |(w : ℚ) / h - 16 / 9| = ((|9 * w - 16 * h| : ℤ) : ℚ) / (9 * h) := by
    rw [key, abs_div, abs_of_pos (show (0 : ℚ) < 9 * h by linarith), Int.cast_abs]
  have h9 : (0 : ℚ) < 9 * h := by linarith
  rcases lt_trichotomy (100 * |9 * w - 16 * h|) (9 * h) with hlt | heq | hgt
  · have hk : ((|9 * w - 16 * h| : ℤ) : ℚ) * 100 + 1 ≤ 9 * h := by
      have : 100 * |9 * w - 16 * h| + 1 ≤ 9 * h := by omega
      have := (Int.cast_le (R := ℚ)).mpr this
      push_cast at this ⊢
      linarith
    have hq : |(w : ℚ) / h - 16 / 9| ≤ 1 / 100 - 1 / (900 * 2 ^ 40) := by
      rw [habs, div_le_iff₀ h9]
      linarith
    have hq1 : |(w : ℚ) / h - 16 / 9| < 1 / 100 := by
      refine lt_of_le_of_lt hq ?_
      norm_num
    have hx2 : (w : ℚ) / h < 2 := by
      have := (abs_lt.mp hq1).2
      linarith
    have hp := tolerance_pass ((w : ℚ) / h) (8006399337547548 / 2 ^ 52)
      (5764607523034235 / 2 ^ 59) (16 / 9) hx0 hx2 hq
      (by rw [abs_le]; constructor <;> norm_num) (by norm_num)
    exact ⟨fun _ => hq1, fun _ => hp⟩
  · have hk : ((|9 * w - 16 * h| : ℤ) : ℚ) * 100 = 9 * h := by
      have := congrArg (Int.cast (R := ℚ)) heq
      push_cast at this ⊢
      linarith
    have hq : |(w : ℚ) / h - 16 / 9| = 1 / 100 := by
      rw [habs, div_eq_iff h9.ne']
      linarith
    have hne : ¬ |(w : ℚ) / h - 16 / 9| < 1 / 100 := by
      rw [hq]
      exact lt_irrefl _
    refine ⟨fun hfl => ?_, fun hex => absurd hex hne⟩
    exfalso
    rcases abs_eq (by norm_num : (0 : ℚ) ≤ 1 / 100) |>.mp hq with h1 | h1
    · have hx : (w : ℚ) / h = 1609 / 900 := by linarith
      rw [hx, boundary_landscape_hi, abs_lt] at hfl
      norm_num at hfl
    · have hx : (w : ℚ) / h = 1591 / 900 := by linarith
      rw [hx, boundary_landscape_lo, abs_lt] at hfl
      norm_num at hfl
  · have hk : 9 * (h : ℚ) + 1 ≤ ((|9 * w - 16 * h| : ℤ) : ℚ) * 100 := by
      have : 9 * h + 1 ≤ 100 * |9 * w - 16 * h| := by omega
      have := (Int.cast_le (R := ℚ)).mpr this
      push_cast at this ⊢
      linarith
    have hq : 1 / 100 + 1 / (900 * 2 ^ 40) ≤ |(w : ℚ) / h - 16 / 9| := by
      rw [habs, le_div_iff₀ h9]
      linarith
    have hne : ¬ |(w : ℚ) / h - 16 / 9| < 1 / 100 := by
      intro hcon
      have : (0 : ℚ) < 1 / (900 * 2 ^ 40) := by norm_num
      linarith
    have hf := tolerance_fail ((w : ℚ) / h) (8006399337547548 / 2 ^ 52)
      (5764607523034235 / 2 ^ 59) (16 / 9) hx0 (by norm_num) hq
      (by rw [abs_le]; constructor <;> norm_num) (by norm_num)
    exact ⟨fun hfl => absurd hfl (not_lt.mpr hf), fun hex => absurd hex hne⟩

/-- Within the stated range the second comparison of `classify` agrees with the exact one. -/
theorem portrait_test_exact (w h : ℤ) (hw : 0 < w) (hh : 0 < h) (hh2 : h ≤ 2 ^ 40) :
    |fl (fl ((w : ℚ) / h) - fl (9 / 16))| < fl (1 / 100) ↔ |(w : ℚ) / h - 9 / 16| < 1 / 100 := by
  rw [fl_nine_sixteenths, fl_hundredth]
  have hwq : (0 : ℚ) < w := by exact_mod_cast hw
  have hhq : (0 : ℚ) < h := by exact_mod_cast hh
  have hh2q : (h : ℚ) ≤ 2 ^ 40 := by exact_mod_cast hh2
  have hx0 : (0 : ℚ) < w / h := div_pos hwq hhq
  have key : (w : ℚ) / h - 9 / 16 = ((16 * w - 9 * h : ℤ) : ℚ) / (16 * h) := by
    push_cast
    field_simp
    ring
  have habs : |(w : ℚ) / h - 9 / 16| = ((|16 * w - 9 * h| : ℤ) : ℚ) / (16 * h) := by
    rw [key, abs_div, abs_of_pos (show (0 : ℚ) < 16 * h by linarith), Int.cast_abs]
  have h16 : (0 : ℚ) < 16 * h := by linarith
  rcases lt_trichotomy (25 * |16 * w - 9 * h|) (4 * h) with hlt | heq | hgt
  · have hk : ((|16 * w - 9 * h| : ℤ) : ℚ) * 25 + 1 ≤ 4 * h := by
      have : 25 * |16 * w - 9 * h| + 1 ≤ 4 * h := by omega
      have := (Int.cast_le (R := ℚ)).mpr this
      push_cast at this ⊢
      linarith
    have hq : |(w : ℚ) / h - 9 / 16| ≤ 1 / 100 - 1 / (900 * 2 ^ 40) := by
      rw [habs, div_le_iff₀ h16]
      linarith
    have hq1 : |(w : ℚ) / h - 9 / 16| < 1 / 100 := by
      refine lt_of_le_of_lt hq ?_
      norm_num
    have hx2 : (w : ℚ) / h < 2 := by
      have := (abs_lt.mp hq1).2
      linarith
    have hp := tolerance_pass ((w : ℚ) / h) (9 / 16)
      (5764607523034235 / 2 ^ 59) (9 / 16) hx0 hx2 hq
      (by rw [abs_le]; constructor <;> norm_num) (by norm_num)
    exact ⟨fun _ => hq1, fun _ => hp⟩
  · have hk : ((|16 * w - 9 * h| : ℤ) : ℚ) * 25 = 4 * h := by
      have := congrArg (Int.cast (R := ℚ)) heq
      push_cast at this ⊢
      linarith
    have hq : |(w : ℚ) / h - 9 / 16| = 1 / 100 := by
      rw [habs, div_eq_iff h16.ne']
      linarith
    have hne : ¬ |(w : ℚ) / h - 9 / 16| < 1 / 100 := by
      rw [hq]
      exact lt_irrefl _
    refine ⟨fun hfl => ?_, fun hex => absurd hex hne⟩
    exfalso
    rcases abs_eq (by norm_num : (0 : ℚ) ≤ 1 / 100) |>.mp hq with h1 | h1
    · have hx : (w : ℚ) / h = 229 / 400 := by linarith
      rw [hx, boundary_portrait_hi, abs_lt] at hfl
      norm_num at hfl
    · have hx : (w : ℚ) / h = 221 / 400 := by linarith
      rw [hx, boundary_portrait_lo, abs_lt] at hfl
      norm_num at hfl
  · have hk : 4 * (h : ℚ) + 1 ≤ ((|16 * w - 9 * h| : ℤ) : ℚ) * 25 := by
      have : 4 * h + 1 ≤ 25 * |16 * w - 9 * h| := by omega
      have := (Int.cast_le (R := ℚ)).mpr this
      push_cast at this ⊢
      linarith
    have hq : 1 / 100 + 1 / (900 * 2 ^ 40) ≤ |(w : ℚ) / h - 9 / 16| := by
      rw [habs, le_div_iff₀ h16]
      linarith
    have hne : ¬ |(w : ℚ) / h - 9 / 16| < 1 / 100 := by
      intro hcon
      have : (0 : ℚ) < 1 / (900 * 2 ^ 40) := by norm_num
      linarith
    have hf := tolerance_fail ((w : ℚ) / h) (9 / 16)
      (5764607523034235 / 2 ^ 59) (9 / 16) hx0 (by norm_num) hq
      (by rw [abs_le]; constructor <;> norm_num) (by norm_num)
    exact ⟨fun hfl => absurd hfl (not_lt.mpr hf), fun hex => absurd hex hne⟩

theorem classify_total (width height : ℤ) :
    classify width height = "16:9" ∨ classify width height = "9:16" ∨
      classify width height = "other" := by
  unfold classify
  by_cases h0 : height = 0
  · rw [if_pos h0]
    exact Or.inr (Or.inr rfl)
  · rw [if_neg h0]
    dsimp only
    by_cases ha : |fl (fl (float64 width / float64 height) - fl (16 / 9))| < fl (1 / 100)
    · rw [if_pos ha]
      exact Or.inl rfl
    · rw [if_neg ha]
      by_cases hb : |fl (fl (float64 width / float64 height) - fl (9 / 16))| < fl (1 / 100)
      · rw [if_pos hb]
        exact Or.inr (Or.inl rfl)
      · rw [if_neg hb]
        exact Or.inr (Or.inr rfl)

/-- In the stated range the binary64 computation of `classify` agrees with the
comparison of the exact quotient. -/
theorem classify_agrees (w h : ℤ) (hw : 0 < w) (hw2 : w < 2 ^ 53) (hh : 0 < h)
    (hh2 : h ≤ 2 ^ 40) :
    (classify w h = "16:9" ∨ classify w h = "9:16" ∨ classify w h = "other") ∧
    (classify w h = "16:9" ↔ |(w : ℚ) / h - 16 / 9| < 1 / 100) ∧
    (classify w h = "9:16" ↔ |(w : ℚ) / h - 9 / 16| < 1 / 100) ∧
    (classify w h = "other" ↔
      ¬ |(w : ℚ) / h - 16 / 9| < 1 / 100 ∧ ¬ |(w : ℚ) / h - 9 / 16| < 1 / 100) := by
  refine ⟨classify_total w h, ?_⟩
  have hA := landscape_test_exact w h hw hh hh2
  have hB := portrait_test_exact w h hw hh hh2
  have hexcl : |(w : ℚ) / h - 16 / 9| < 1 / 100 → ¬ |(w : ℚ) / h - 9 / 16| < 1 / 100 := by
    intro h1 h2
    rw [abs_lt] at h1 h2
    linarith [h1.1, h2.2]
  have hh3 : h < 2 ^ 53 := lt_of_le_of_lt hh2 (by norm_num)
  unfold classify
  rw [if_neg hh.ne']
  simp only [float64, fl_intCast w hw hw2, fl_intCast h hh hh3]
  by_cases h1 : |(w : ℚ) / h - 16 / 9| < 1 / 100
  · rw [if_pos (hA.mpr h1)]
    have h2 := hexcl h1
    exact ⟨⟨fun _ => h1, fun _ => rfl⟩, ⟨fun hc => absurd hc (by decide), fun hc => absurd hc h2⟩,
      ⟨fun hc => absurd hc (by decide), fun hc => absurd h1 hc.1⟩⟩
  · rw [if_neg (fun hc => h1 (hA.mp hc))]
    by_cases h2 : |(w : ℚ) / h - 9 / 16| < 1 / 100
    · rw [if_pos (hB.mpr h2)]
      exact ⟨⟨fun hc => absurd hc (by decide), fun hc => absurd hc h1⟩,
        ⟨fun _ => h2, fun _ => rfl⟩, ⟨fun hc => absurd hc (by decide), fun hc => absurd h2 hc.2⟩⟩
    · rw [if_neg (fun hc => h2 (hB.mp hc))]
      exact ⟨⟨fun hc => absurd hc (by decide), fun hc => absurd hc h1⟩,
        ⟨fun hc => absurd hc (by decide), fun hc => absurd hc h2⟩, ⟨fun _ => ⟨h1, h2⟩, fun _ => rfl⟩⟩

theorem classify_1280_720 : classify 1280 720 = "16:9" :=
  (classify_agrees 1280 720 (by norm_num) (by norm_num) (by norm_num)
    (by norm_num)).2.1.mpr (by norm_num)

theorem classify_720_1280 : classify 720 1280 = "9:16" :=
  (classify_agrees 720 1280 (by norm_num) (by norm_num) (by norm_num)
    (by norm_num)).2.2.1.mpr (by norm_num)

/-! ## Aspect ratio classification -/

/-- C2, as the code has it: the classification step is a total function into the
three classes, and for every width `0 < w < 2^53` and height `0 < h ≤ 2^40` its
binary64 computation returns "16:9" exactly when `|w/h - 16/9| < 1/100` for the
exact quotient, "9:16" exactly when `|w/h - 9/16| < 1/100`, and "other" exactly
when neither holds. -/
theorem classify_exact_in_range (w h : ℤ) (hw : 0 < w) (hw2 : w < 2 ^ 53) (hh : 0 < h)
    (hh2 : h ≤ 2 ^ 40) :
    (classify w h = "16:9" ∨ classify w h = "9:16" ∨ classify w h = "other") ∧
    (classify w h = "16:9" ↔ |(w : ℚ) / h - 16 / 9| < 1 / 100) ∧
    (classify w h = "9:16" ↔ |(w : ℚ) / h - 9 / 16| < 1 / 100) ∧
    (classify w h = "other" ↔
      ¬ |(w : ℚ) / h - 16 / 9| < 1 / 100 ∧ ¬ |(w : ℚ) / h - 9 / 16| < 1 / 100) :=
  classify_agrees w h hw hw2 hh hh2

/-- Witness for C2: 1280x720 is landscape and 720x1280 is portrait. -/
theorem classify_exact_in_range_witness :
    classify 1280 720 = "16:9" ∧ classify 720 1280 = "9:16" :=
  ⟨(classify_exact_in_range 1280 720 (by norm_num) (by norm_num) (by norm_num)
      (by norm_num)).2.1.mpr (by norm_num),
   (classify_exact_in_range 720 1280 (by norm_num) (by norm_num) (by norm_num)
      (by norm_num)).2.2.1.mpr (by norm_num)⟩

theorem float64_large_width : float64 1608999999999999999 = 1609000000000000000 := by
  unfold float64
  have h := fl_eval 1608999999999999999 60 6285156250000000 (by norm_num) (by norm_num)
    (by rw [abs_lt]; constructor <;> norm_num)
  push_cast
  rw [h]
  norm_num

theorem float64_large_height : float64 900000000000000000 = 900000000000000000 := by
  unfold float64
  have h := fl_eval 900000000000000000 59 7031250000000000 (by norm_num) (by norm_num)
    (by rw [abs_lt]; constructor <;> norm_num)
  push_cast
  rw [h]
  norm_num

/-- Counterexample to C2 as stated: for the geometry 1608999999999999999 x
900000000000000000 the exact quotient is within 1/100 of 16/9, yet the binary64
computation of `classify` returns "other". -/
theorem classify_large_geometry_other :
    |((1608999999999999999 : ℤ) : ℚ) / ((900000000000000000 : ℤ) : ℚ) - 16 / 9| < 1 / 100 ∧
    classify 1608999999999999999 900000000000000000 = "other" := by
  constructor
  · rw [abs_lt]
    constructor <;> norm_num
  · unfold classify
    rw [if_neg (by norm_num)]
    dsimp only
    rw [float64_large_width, float64_large_height]
    have hq : (1609000000000000000 : ℚ) / 900000000000000000 = 1609 / 900 := by norm_num
    rw [hq]
    have h1 : ¬ |fl (fl (1609 / 900) - fl (16 / 9))| < fl (1 / 100) := by
      rw [fl_sixteen_ninths, fl_hundredth, boundary_landscape_hi, abs_lt]
      norm_num
    have h2 : ¬ |fl (fl (1609 / 900) - fl (9 / 16))| < fl (1 / 100) := by
      rw [fl_nine_sixteenths, fl_hundredth]
      have hf := tolerance_fail (1609 / 900) (9 / 16) (5764607523034235 / 2 ^ 59) (9 / 16)
        (by norm_num) (by norm_num)
        (by rw [le_abs']; right; norm_num)
        (by rw [abs_le]; constructor <;> norm_num) (by norm_num)
      exact not_lt.mpr hf
    rw [if_neg h1, if_neg h2]

/-! ## The base64 token -/

theorem encodeURL_length : encodeURL.length = 64 := by decide

theorem b64_mem (n : Nat) : b64 n ∈ encodeURL := by
  unfold b64
  have h : n % 64 < encodeURL.length := by
    rw [encodeURL_length]
    exact Nat.mod_lt _ (by norm_num)
  rw [List.getD_eq_getElem _ _ h]
  exact List.getElem_mem _

theorem b64Index_b64_lt : ∀ n < 64, b64Index (b64 n) = n := by decide

theorem b64Index_b64 (n : Nat) : b64Index (b64 n) = n % 64 := by
  have h := b64Index_b64_lt (n % 64) (Nat.mod_lt _ (by norm_num))
  have h2 : b64 (n % 64) = b64 n := by
    unfold b64
    rw [Nat.mod_mod]
  rw [h2] at h
  exact h

theorem encodeURL_urlSafe :
    ∀ c ∈ encodeURL, c.isAlphanum = true ∨ c = '-' ∨ c = '_' := by decide

theorem rawURLEncode_length : ∀ l : List Nat, (rawURLEncode l).length = (4 * l.length + 2) / 3
  | [] => by simp [rawURLEncode]
  | [_] => by simp [rawURLEncode]
  | [_, _] => by simp [rawURLEncode]
  | _ :: _ :: _ :: rest => by
    simp only [rawURLEncode, List.length_cons, rawURLEncode_length rest]
    omega

theorem rawURLEncode_mem : ∀ (l : List Nat) (c : Char), c ∈ rawURLEncode l → c ∈ encodeURL
  | [], c, h => by simp [rawURLEncode] at h
  | [_], c, h => by
    simp only [rawURLEncode, List.mem_cons, List.mem_singleton, List.not_mem_nil, or_false] at h
    rcases h with h | h <;> rw [h] <;> exact b64_mem _
  | [_, _], c, h => by
    simp only [rawURLEncode, List.mem_cons, List.mem_singleton, List.not_mem_nil, or_false] at h
    rcases h with h | h | h <;> rw [h] <;> exact b64_mem _
  | _ :: _ :: _ :: rest, c, h => by
    simp only [rawURLEncode, List.mem_cons] at h
    rcases h with h | h | h | h | h
    · rw [h]; exact b64_mem _
    · rw [h]; exact b64_mem _
    · rw [h]; exact b64_mem _
    · rw [h]; exact b64_mem _
    · exact rawURLEncode_mem rest c h

theorem rawURLDecode_encode : ∀ l : List Nat,
    rawURLDecode (rawURLEncode l) = l.map (fun x => x % 256)
  | [] => by simp [rawURLEncode, rawURLDecode]
  | [a] => by
    simp only [rawURLEncode, rawURLDecode, b64Index_b64, List.map_cons, List.map_nil,
      List.cons.injEq, and_true]
    omega
  | [a, b] => by
    simp only [rawURLEncode, rawURLDecode, b64Index_b64, List.map_cons, List.map_nil,
      List.cons.injEq, and_true]
    omega
  | a :: b :: c :: rest => by
    simp only [rawURLEncode, rawURLDecode, b64Index_b64, List.map_cons, List.cons.injEq,
      rawURLDecode_encode rest, and_true]
    omega

theorem EncodeToString_injective (b b2 : List Nat)
    (h : EncodeToString b2 = EncodeToString b) :
    b2.map (fun x => x % 256) = b.map (fun x => x % 256) := by
  unfold EncodeToString at h
  have h2 : rawURLEncode b2 = rawURLEncode b := by
    have := congrArg String.toList h
    simpa using this
  rw [← rawURLDecode_encode b2, ← rawURLDecode_encode b, h2]

theorem EncodeToString_token (b : List Nat) (hlen : b.length = 32) :
    (EncodeToString b).length = 43 ∧
    (∀ c ∈ (EncodeToString b).toList, c.isAlphanum = true ∨ c = '-' ∨ c = '_') ∧
    '=' ∉ (EncodeToString b).toList ∧
    rawURLDecode (EncodeToString b).toList = b.map (fun x => x % 256) ∧
    (∀ b2, EncodeToString b2 = EncodeToString b →
      b2.map (fun x => x % 256) = b.map (fun x => x % 256)) := by
  have hsafe : ∀ c ∈ (EncodeToString b).toList, c.isAlphanum = true ∨ c = '-' ∨ c = '_' := by
    intro c hc
    exact encodeURL_urlSafe c (rawURLEncode_mem b c hc)
  refine ⟨?_, hsafe, ?_, rawURLDecode_encode b, fun b2 h => EncodeToString_injective b b2 h⟩
  · unfold EncodeToString
    rw [String.length_mk, rawURLEncode_length, hlen]
  · intro hc
    have := hsafe _ hc
    revert this
    decide

/-! ## Successful upload -/

theorem orientation_cases (r : String)
    (h : r = "16:9" ∨ r = "9:16" ∨ r = "other") :
    (r = "16:9" ∧ orientation r = "landscape") ∨ (r = "9:16" ∧ orientation r = "portrait") ∨
      (r = "other" ∧ orientation r = "other") := by
  rcases h with h | h | h <;> subst h
  · exact Or.inl ⟨rfl, by decide⟩
  · exact Or.inr (Or.inl ⟨rfl, by decide⟩)
  · exact Or.inr (Or.inr ⟨rfl, by decide⟩)

/-- C8: when every step succeeds, with first stream `s0` and random bytes `b`, the
handler returns after exactly one PutObject call whose key is the orientation of
the classified geometry, "/", the padding-free URL-safe base64 text of `b` and
".mp4"; the one record passed to UpdateVideo carries the distribution root, "/" and
that key as its video URL; the only response is 200 with that record, which is also
what the store then holds. The orientation is landscape, portrait or other as the
class is "16:9", "9:16" or "other"; 1280x720 gives landscape, 720x1280 portrait.
The token has 43 characters, each a letter, a digit, "-" or "_", none of them the
padding "="; decoding it gives back the 32 bytes, so two byte strings with the same
token are equal. -/
theorem handlerUploadVideo_success (cfg : apiConfig) (o : Outcomes) (files : List String)
    (db : List Video) (videoID : Nat) (token : String) (video : Video) (rnd : String)
    (s0 : Stream) (ss : List Stream) (b : List Nat)
    (hp : ReachesProbe cfg o db videoID token video rnd)
    (hprobe : o.ffprobe (tempName o rnd) = .parsed (s0 :: ss))
    (hff : o.ffmpeg (tempName o rnd) (tempName o rnd ++ ".processing") = .done)
    (hop : o.openErr = false) (hb : o.randBytes = b) (hlen : b.length = 32)
    (hput : o.putObjectErr = false) (hupd : o.updateVideoErr = false) :
    (handlerUploadVideo cfg o ⟨[], files, db⟩).2 = Exit.returned ∧
    (handlerUploadVideo cfg o ⟨[], files, db⟩).1.trace.filter isPutObject =
      [Event.putObject (o.getenv "S3_BUCKET")
        (orientation (classify s0.Width s0.Height) ++ "/" ++ EncodeToString b ++ ".mp4")
        "video/mp4"] ∧
    (handlerUploadVideo cfg o ⟨[], files, db⟩).1.trace.filter isUpdateVideo =
      [Event.updateVideo { video with VideoURL := some (o.getenv "S3_CF_DISTRO" ++ "/" ++
        (orientation (classify s0.Width s0.Height) ++ "/" ++ EncodeToString b ++ ".mp4")) }] ∧
    (handlerUploadVideo cfg o ⟨[], files, db⟩).1.trace.filter isResponse =
      [Event.respondWithJSON StatusOK { video with VideoURL := some (o.getenv "S3_CF_DISTRO" ++
        "/" ++ (orientation (classify s0.Width s0.Height) ++ "/" ++ EncodeToString b ++
          ".mp4")) }] ∧
    (handlerUploadVideo cfg o ⟨[], files, db⟩).1.db =
      UpdateVideo db { video with VideoURL := some (o.getenv "S3_CF_DISTRO" ++ "/" ++
        (orientation (classify s0.Width s0.Height) ++ "/" ++ EncodeToString b ++ ".mp4")) } ∧
    ((classify s0.Width s0.Height = "16:9" ∧
        orientation (classify s0.Width s0.Height) = "landscape") ∨
      (classify s0.Width s0.Height = "9:16" ∧
        orientation (classify s0.Width s0.Height) = "portrait") ∨
      (classify s0.Width s0.Height = "other" ∧
        orientation (classify s0.Width s0.Height) = "other")) ∧
    orientation (classify 1280 720) = "landscape" ∧
    orientation (classify 720 1280) = "portrait" ∧
    (EncodeToString b).length = 43 ∧
    (∀ c ∈ (EncodeToString b).toList, c.isAlphanum = true ∨ c = '-' ∨ c = '_') ∧
    '=' ∉ (EncodeToString b).toList ∧
    rawURLDecode (EncodeToString b).toList = b.map (fun x => x % 256) ∧
    (∀ b2, EncodeToString b2 = EncodeToString b →
      b2.map (fun x => x % 256) = b.map (fun x => x % 256)) := by
  have hkey : objectKey o (orientation (classify s0.Width s0.Height)) "mp4" =
      orientation (classify s0.Width s0.Height) ++ "/" ++ EncodeToString b ++ ".mp4" := by
    unfold objectKey
    rw [hb, List.take_left' hlen, String.append_assoc _ "." "mp4",
      show "." ++ "mp4" = ".mp4" by decide]
  rw [handler_probe cfg o files db videoID token video rnd hp,
    processStaged_stored o video _ _ _ _ s0 ss hp.hra hp.hwr hprobe hff hop,
    storeAndRecord_ok o video _ _ _ _ hput hupd, hkey]
  refine ⟨rfl, ?_, ?_, ?_, ?_, orientation_cases _ (classify_total _ _), ?_, ?_,
    EncodeToString_token b hlen⟩
  · simp [deferred, closeFile, osRemove, World.log]
  · simp [deferred, closeFile, osRemove, World.log]
  · simp [deferred, closeFile, osRemove, World.log]
  · simp [deferred, closeFile, osRemove, World.log]
  · rw [classify_1280_720]
    decide
  · rw [classify_720_1280]
    decide

/-- Witness for C8: the owner uploads a 1280x720 file with random bytes 0, 1, ...,
31, then a 720x1280 file with random bytes 255, 248, ..., 38, and every step
succeeds. -/
theorem handlerUploadVideo_success_witness :
    ((handlerUploadVideo ⟨"secret"⟩ sampleOutcomes sampleWorld).1.trace.filter isPutObject =
      [Event.putObject "bucket"
        (orientation (classify 1280 720) ++ "/" ++
          "AAECAwQFBgcICQoLDA0ODxAREhMUFRYXGBkaGxwdHh8" ++ ".mp4") "video/mp4"] ∧
      orientation (classify 1280 720) = "landscape" ∧
      rawURLDecode "AAECAwQFBgcICQoLDA0ODxAREhMUFRYXGBkaGxwdHh8".toList = List.range 32) ∧
    ((handlerUploadVideo ⟨"secret"⟩ portraitOutcomes sampleWorld).1.trace.filter isPutObject =
      [Event.putObject "bucket"
        (orientation (classify 720 1280) ++ "/" ++
          "__jx6uPc1c7HwLmyq6Sdlo-IgXpzbGVeV1BJQjs0LSY" ++ ".mp4") "video/mp4"] ∧
      orientation (classify 720 1280) = "portrait" ∧
      rawURLDecode "__jx6uPc1c7HwLmyq6Sdlo-IgXpzbGVeV1BJQjs0LSY".toList =
        (List.range 32).map (fun i => 255 - 7 * i)) :=
  have h := handlerUploadVideo_success ⟨"secret"⟩ sampleOutcomes [] [⟨7, 1, none, none⟩] 7
    "token" ⟨7, 1, none, none⟩ "123456789" ⟨1280, 720⟩ [] (List.range 32)
    ⟨⟨rfl, rfl, rfl, by decide, rfl, rfl⟩, rfl, rfl, rfl, rfl, rfl⟩ rfl rfl rfl rfl rfl rfl rfl
  have h2 := handlerUploadVideo_success ⟨"secret"⟩ portraitOutcomes [] [⟨7, 1, none, none⟩] 7
    "token" ⟨7, 1, none, none⟩ "123456789" ⟨720, 1280⟩ []
    ((List.range 32).map (fun i => 255 - 7 * i))
    ⟨⟨rfl, rfl, rfl, by decide, rfl, rfl⟩, rfl, rfl, rfl, rfl, rfl⟩ rfl rfl rfl rfl rfl rfl rfl
  ⟨⟨h.2.1, h.2.2.2.2.2.2.1, h.2.2.2.2.2.2.2.2.2.2.2.1⟩,
    ⟨h2.2.1, h2.2.2.2.2.2.2.2.1, h2.2.2.2.2.2.2.2.2.2.2.2.1⟩⟩

/-- C10: the size limit is not enforced. The owner sends a body one byte above
`maxMemory`; a multipart extraction through a reader carrying the limit would
fail, but the limited reader built at line 55 is never installed as `r.Body`, so
`r.FormFile` reads the unlimited body, the upload goes through and the answer is
200, not 413. -/
theorem handlerUploadVideo_oversize_body_accepted :
    maxMemory < oversizeOutcomes.bodyLen ∧
    oversizeOutcomes.formFile ⟨some maxMemory⟩ = true ∧
    Event.formFile "video" none ∈
      (handlerUploadVideo ⟨"secret"⟩ oversizeOutcomes sampleWorld).1.trace ∧
    statuses (handlerUploadVideo ⟨"secret"⟩ oversizeOutcomes sampleWorld).1.trace =
      [StatusOK] ∧
    StatusRequestEntityTooLarge ∉
      statuses (handlerUploadVideo ⟨"secret"⟩ oversizeOutcomes sampleWorld).1.trace := by
  decide

/-! ## Cleanup of the staged files -/

/-- C4: the staged files are still present when the handler returns. After a
successful upload, a probe failure, a store failure and a metadata failure the temp
file remains (the deferred `os.Remove` names the relative path `tubely-upload.mp4`);
after a remux failure that left its output, the rewritten file remains as well. -/
theorem handlerUploadVideo_leaves_staged_files :
    (handlerUploadVideo ⟨"secret"⟩ sampleOutcomes sampleWorld).1.files =
      ["/tmp/tubely-upload.mp4123456789"] ∧
    (handlerUploadVideo ⟨"secret"⟩ probeFailOutcomes sampleWorld).1.files =
      ["/tmp/tubely-upload.mp4123456789"] ∧
    (handlerUploadVideo ⟨"secret"⟩ rewriteFailOutcomes sampleWorld).1.files =
      ["/tmp/tubely-upload.mp4123456789.processing", "/tmp/tubely-upload.mp4123456789"] ∧
    (handlerUploadVideo ⟨"secret"⟩ putFailOutcomes sampleWorld).1.files =
      ["/tmp/tubely-upload.mp4123456789"] ∧
    (handlerUploadVideo ⟨"secret"⟩ updateFailOutcomes sampleWorld).1.files =
      ["/tmp/tubely-upload.mp4123456789"] ∧
    Event.remove "tubely-upload.mp4" ∈
      (handlerUploadVideo ⟨"secret"⟩ sampleOutcomes sampleWorld).1.trace ∧
    Event.remove "/tmp/tubely-upload.mp4123456789" ∉
      (handlerUploadVideo ⟨"secret"⟩ sampleOutcomes sampleWorld).1.trace := by
  decide

/-! ## Empty stream list -/

/-- C6: when the tool output decodes to an empty stream list, `getVideoAspectRatio`
returns no error: indexing `out.Streams[0]` panics. The handler is left by that
panic with no response written (no 500) and no PutObject call. -/
theorem getVideoAspectRatio_empty_streams_panics :
    (getVideoAspectRatio noStreamOutcomes "/tmp/tubely-upload.mp4123456789" sampleWorld).2 =
      Result.panic "index out of range [0] with length 0" ∧
    (handlerUploadVideo ⟨"secret"⟩ noStreamOutcomes sampleWorld).2 =
      Exit.panicked "index out of range [0] with length 0" ∧
    statuses (handlerUploadVideo ⟨"secret"⟩ noStreamOutcomes sampleWorld).1.trace = [] ∧
    (handlerUploadVideo ⟨"secret"⟩ noStreamOutcomes sampleWorld).1.trace.any isPutObject
      = false := by
  decide

end Tubely
